import Mathlib

set_option maxHeartbeats 1000000
set_option maxRecDepth 100000

/-! Verification of the tutorbot prompt-orchestration core: a shallow
embedding of its template engine, JSON extraction pipeline, classifiers,
escalation engine and orchestrator, with theorems about the claims of the
specification. -/

/-- Python exception values, by class, carrying the message/argument. -/
inductive PyErr where
  | keyError : String → PyErr
  | valueError : String → PyErr
  | typeError : String → PyErr
  | jsonDecodeError : String → PyErr
  deriving DecidableEq, Repr

/-- Python/JSON values as used by this code base: strings, integers,
booleans, null, lists and string-keyed dicts (dicts as insertion-ordered
association lists, mirroring Python dict semantics). -/
inductive Val where
  | str : String → Val
  | int : Int → Val
  | bool : Bool → Val
  | null : Val
  | list : List Val → Val
  | dict : List (String × Val) → Val
  deriving Repr

/-- First value bound to a key in a dict (Python `d[k]` / `d.get(k)`). -/
def pyLookup {α : Type _} (d : List (String × α)) (k : String) : Option α :=
  match d with
  | [] => none
  | (k', v) :: rest => if k' = k then some v else pyLookup rest k

/-- Python `k in d`. -/
def dictHas {α : Type _} (d : List (String × α)) (k : String) : Bool :=
  (pyLookup d k).isSome

/-- Python `d[k] = v`: update in place keeping insertion order, else append. -/
def dictSet {α : Type _} (d : List (String × α)) (k : String) (v : α) :
    List (String × α) :=
  match d with
  | [] => [(k, v)]
  | (k', v') :: rest => if k' = k then (k, v) :: rest else (k', v') :: dictSet rest k v

theorem pyLookup_dictSet_self {α : Type _} (d : List (String × α)) (k : String) (v : α) :
    pyLookup (dictSet d k v) k = some v := by
  induction d with
  | nil => simp [dictSet, pyLookup]
  | cons hd tl ih =>
    obtain ⟨k', v'⟩ := hd
    by_cases h : k' = k
    · simp [dictSet, h, pyLookup]
    · simp [dictSet, h, pyLookup, ih]

theorem pyLookup_dictSet_ne {α : Type _} (d : List (String × α)) (k k' : String)
    (v : α) (h : k ≠ k') : pyLookup (dictSet d k v) k' = pyLookup d k' := by
  induction d with
  | nil => simp [dictSet, pyLookup, h]
  | cons hd tl ih =>
    obtain ⟨k0, v0⟩ := hd
    by_cases h0 : k0 = k
    · subst h0
      simp [dictSet, pyLookup, h]
    · by_cases h1 : k0 = k'
      · simp [dictSet, h0, pyLookup, h1, Ne.symm h]
      · simp [dictSet, h0, pyLookup, h1, ih]

-- quick sanity examples (environment checks)

/-! ## String helpers (Python string primitives, ASCII scope) -/

/-- Python `str.lower()` (ASCII scope, which covers every string this code
compares). -/
def lowerStr (s : String) : String := String.mk (s.toList.map Char.toLower)

/-- Does `needle` occur contiguously in the haystack? It occurs contiguously somewhere in hay. -/
def hasSegment (needle : List Char) : List Char → Bool
  | [] => needle.isEmpty
  | c :: rest => needle.isPrefixOf (c :: rest) || hasSegment needle rest

/-- Python `sub in s` substring containment. -/
def strContains (s sub : String) : Bool := hasSegment sub.toList s.toList

/-- Python whitespace as matched by `\s` and `str.strip()` (ASCII scope). -/
def isPyWS (c : Char) : Bool :=
  c = ' ' || c = '\t' || c = '\n' || c = '\r' || c = '\x0b' || c = '\x0c'

/-- Python `str.strip()`. -/
def stripChars (cs : List Char) : List Char :=
  ((cs.dropWhile isPyWS).reverse.dropWhile isPyWS).reverse

def stripStr (s : String) : String := String.mk (stripChars s.toList)

/-- First binding of a key in a kwargs/str-valued mapping. -/
def lookupStr (m : List (String × String)) (k : String) : Option String :=
  match m with
  | [] => none
  | (k', v) :: rest => if k' = k then some v else lookupStr rest k

/-! ## Template engine (`src/utils/prompt_template_utils.py`)

`string.Template` placeholder identifiers: `[_a-zA-Z][_a-zA-Z0-9]*`. -/

def isIdentStart (c : Char) : Bool := c.isAlpha || c = '_'

def isIdentChar (c : Char) : Bool := c.isAlphanum || c = '_'

/-- Read `ident}` at the head of the input (the interior of a `$\x7b...\x7d`
placeholder); returns the identifier and the rest after the closing brace. -/
def readBraced (cs : List Char) : Option (String × List Char) :=
  match cs with
  | [] => none
  | c :: rest =>
    if isIdentStart c then
      match rest.dropWhile isIdentChar with
      | '\x7d' :: rest3 => some (String.mk (c :: rest.takeWhile isIdentChar), rest3)
      | _ => none
    else none

theorem length_takeWhile_add_dropWhile (p : Char → Bool) (l : List Char) :
    (l.takeWhile p).length + (l.dropWhile p).length = l.length := by
  rw [← List.length_append, List.takeWhile_append_dropWhile]

theorem readBraced_length {cs : List Char} {id : String} {rest : List Char}
    (h : readBraced cs = some (id, rest)) : rest.length + 2 ≤ cs.length := by
  match cs with
  | [] => simp [readBraced] at h
  | c :: tl =>
    simp only [readBraced] at h
    split at h
    · split at h
      · next rest3 heq =>
        simp only [Option.some.injEq, Prod.mk.injEq] at h
        obtain ⟨-, h2⟩ := h
        subst h2
        have hlen := length_takeWhile_add_dropWhile isIdentChar tl
        rw [heq] at hlen
        simp only [List.length_cons] at hlen ⊢
        omega
      · exact absurd h (by simp)
    · exact absurd h (by simp)

/-- Model of `_extract_variables`: all `$\x7bident\x7d` occurrences in source order, as
found by `re.findall` (leftmost, non-overlapping; on a failed candidate the
scan resumes one character later). Fuel-indexed so the scan is structural;
`findVars` supplies fuel covering the whole input (each step consumes at
least one character). -/
def findVarsF : Nat → List Char → List String
  | 0, _ => []
  | _ + 1, [] => []
  | fuel + 1, c :: rest =>
    if c = '$' then
      match rest with
      | r1 :: rest2 =>
        if r1 = '\x7b' then
          match readBraced rest2 with
          | some (id, rest') => id :: findVarsF fuel rest'
          | none => findVarsF fuel (r1 :: rest2)
        else findVarsF fuel rest
      | [] => findVarsF fuel rest
    else findVarsF fuel rest

def findVars (cs : List Char) : List String := findVarsF cs.length cs

/-- Every `$` in the text opens a well-formed braced placeholder
`$\x7bident\x7d` (no `$$` escapes, no bare `$name`, no stray `$`). Templates
in this repository all satisfy this. -/
def onlyBracedF : Nat → List Char → Bool
  | 0, _ => true
  | _ + 1, [] => true
  | fuel + 1, c :: rest =>
    if c = '$' then
      match rest with
      | r1 :: rest2 =>
        if r1 = '\x7b' then
          match readBraced rest2 with
          | some (_, rest') => onlyBracedF fuel rest'
          | none => false
        else false
      | [] => false
    else onlyBracedF fuel rest

def onlyBraced (cs : List Char) : Bool := onlyBracedF cs.length cs

/-- Model of `string.Template.substitute`: one left-to-right pass; `$$` is an escape,
`$\x7bident\x7d` and `$ident` substitute (KeyError when the variable is not
supplied), any other `$` raises ValueError. Ordinary characters, including
braces not preceded by `$`, pass through literally. Fuel-indexed as above. -/
def substAuxF (m : List (String × String)) : Nat → List Char → Except PyErr (List Char)
  | 0, _ => .ok []
  | _ + 1, [] => .ok []
  | fuel + 1, c :: rest =>
    if c = '$' then
      match rest with
      | r1 :: rest2 =>
        if r1 = '$' then (substAuxF m fuel rest2).map ('$' :: ·)
        else if r1 = '\x7b' then
          match readBraced rest2 with
          | some (id, rest') =>
            match lookupStr m id with
            | some v => (substAuxF m fuel rest').map (v.toList ++ ·)
            | none => .error (.keyError id)
          | none => .error (.valueError "Invalid placeholder in string")
        else if isIdentStart r1 then
          let id := String.mk (r1 :: rest2.takeWhile isIdentChar)
          match lookupStr m id with
          | some v =>
            (substAuxF m fuel (rest2.dropWhile isIdentChar)).map (v.toList ++ ·)
          | none => .error (.keyError id)
        else .error (.valueError "Invalid placeholder in string")
      | [] => .error (.valueError "Invalid placeholder in string")
    else (substAuxF m fuel rest).map (c :: ·)

def substitute (m : List (String × String)) (cs : List Char) :
    Except PyErr (List Char) :=
  substAuxF m cs.length cs

/-- Structure `PromptTemplate`: template text plus metadata; `required_vars` is the
derived field `_extract_variables` computes at construction. -/
structure PromptTemplate where
  template_text : String
  metadata : List (String × Val) := []

def PromptTemplate.required_vars (t : PromptTemplate) : List String :=
  findVars t.template_text.toList

/-- Model of `PromptTemplate.render`: first check the `required_vars` against the
supplied kwargs and raise a ValueError naming every missing one; then run
`Template.substitute`, re-raising its KeyError as a ValueError. -/
def PromptTemplate.render (t : PromptTemplate) (kwargs : List (String × String)) :
    Except PyErr String :=
  let missing := t.required_vars.filter (fun v => (lookupStr kwargs v).isNone)
  if missing.isEmpty then
    match substitute kwargs t.template_text.toList with
    | .ok cs => .ok (String.mk cs)
    | .error (.keyError k) =>
      .error (.valueError ("Missing template variable: \x27" ++ k ++ "\x27"))
    | .error e => .error e
  else
    .error (.valueError ("Missing required variables: " ++ String.intercalate ", " missing))

/-- The `combine_templates` metadata loop, one `(key, value)` step: a fresh key
is stored as-is; an existing list value is extended (list) or appended
(non-list); any other collision collects both values into a two-element
list. -/
def combineMetaStep (acc : List (String × Val)) (kv : String × Val) :
    List (String × Val) :=
  match pyLookup acc kv.1 with
  | some (.list l) =>
    match kv.2 with
    | .list l2 => dictSet acc kv.1 (.list (l ++ l2))
    | v => dictSet acc kv.1 (.list (l ++ [v]))
  | some v => dictSet acc kv.1 (.list [v, kv.2])
  | none => dictSet acc kv.1 kv.2

/-- The metadata merge of `combine_templates` (the `if template.metadata:`
guard only skips empty maps, which fold to the same result). The source
loop aliases and mutates list values in place; this is the pure view of the
returned dict, the aliasing side effect is modelled separately below. -/
def combineMetadata (metas : List (List (String × Val))) : List (String × Val) :=
  metas.foldl (fun acc m => m.foldl combineMetaStep acc) []

/-- Model of `combine_templates`: texts joined with the separator, metadata merged by
`combineMetadata`; `required_vars` is recomputed from the combined text by
the `PromptTemplate` constructor (here: the derived field). -/
def combine_templates (templates : List PromptTemplate)
    (separator : String := "\n\n") : PromptTemplate :=
  { template_text := String.intercalate separator (templates.map (·.template_text)),
    metadata := combineMetadata (templates.map (·.metadata)) }

/-- Model of `merge_json_objects` (json_handler): start from a copy of the first
dict, then for each key of the second: recursively merge dict-valued
collisions, concatenate list-valued collisions, otherwise the second value
wins (the accumulator plays the role of `result`). -/
def merge_json_objects : List (String × Val) → List (String × Val) → List (String × Val)
  | res, [] => res
  | res, (k, Val.dict d2) :: rest =>
    let res2 :=
      match pyLookup res k with
      | some (.dict d1) => dictSet res k (.dict (merge_json_objects d1 d2))
      | _ => dictSet res k (.dict d2)
    merge_json_objects res2 rest
  | res, (k, Val.list l2) :: rest =>
    let res2 :=
      match pyLookup res k with
      | some (.list l1) => dictSet res k (.list (l1 ++ l2))
      | _ => dictSet res k (.list l2)
    merge_json_objects res2 rest
  | res, (k, v) :: rest => merge_json_objects (dictSet res k v) rest
termination_by _ l => sizeOf l
decreasing_by all_goals (simp; try omega)

/-- The `ensure required fields` loop shared by the classifiers and
handlers (`for field in required_fields: if field not in d: d[field] = default`):
the Schema Normalizer of the spec. Presence, not truthiness, is the test. -/
def normalizeSchema (d : List (String × Val)) (keys : List String)
    (defaults : String → Val) : List (String × Val) :=
  match keys with
  | [] => d
  | k :: rest =>
    normalizeSchema (if dictHas d k then d else dictSet d k (defaults k)) rest defaults

/-! ## Tolerant JSON extraction (`src/utils/json_handler.py`) -/

/-- Does the text start with three backticks? -/
def startsTriple (cs : List Char) : Bool :=
  ['\x60', '\x60', '\x60'].isPrefixOf cs

/-- Content before the first triple backtick, if any. -/
def findTripleContent : List Char → Option (List Char)
  | [] => none
  | c :: rest =>
    if startsTriple (c :: rest) then some []
    else (findTripleContent rest).map (c :: ·)

/-- Drop a literal `json` tag, mirroring the greedy optional group. -/
def dropJsonTag (cs : List Char) : List Char :=
  if ['j', 's', 'o', 'n'].isPrefixOf cs then cs.drop 4 else cs

/-- Model of the regex search for the fence pattern (triple backticks, optional `json`
tag, `\s*`, lazy body, closing triple backticks): at the leftmost opening
fence, the group is the text after the tag and whitespace up to the
earliest closing fence; if no closing fence exists the scan resumes one
character later. -/
def fenceSearch : List Char → Option (List Char)
  | [] => none
  | c :: rest =>
    if startsTriple (c :: rest) then
      let body := (dropJsonTag ((c :: rest).drop 3)).dropWhile isPyWS
      match findTripleContent body with
      | some content => some content
      | none => fenceSearch rest
    else fenceSearch rest

/-- Content strictly before the first closing brace, if one exists. -/
def untilRBrace : List Char → Option (List Char)
  | [] => none
  | c :: rest =>
    if c = '\x7d' then some [] else (untilRBrace rest).map (c :: ·)

/-- Model of the regex search for the lazy brace pattern: from the first `\x7b` to the
earliest following `\x7d`, both included; none when either is missing. -/
def braceSearch : List Char → Option (List Char)
  | [] => none
  | c :: rest =>
    if c = '\x7b' then
      match untilRBrace rest with
      | some content => some ('\x7b' :: (content ++ ['\x7d']))
      | none => none
    else braceSearch rest

/-- Model of `extract_json_from_text`: the interior of the fenced block if a fence
matches, else the first lazy brace span, else absence; matches are
stripped. -/
def extract_json_from_text (text : String) : Option String :=
  match fenceSearch text.toList with
  | some inner => some (String.mk (stripChars inner))
  | none =>
    match braceSearch text.toList with
    | some span => some (String.mk (stripChars span))
    | none => none

/-! `json.loads`, modelled for the JSON fragment this repository produces
and consumes: strings with the common escapes (no `\u`), integer numerals
(no theorem input uses float literals), booleans, null, arrays, objects;
whole-input parse with a trailing-garbage check. Failures are
`json.JSONDecodeError`. -/

def isJsonWS (c : Char) : Bool := c = ' ' || c = '\t' || c = '\n' || c = '\r'

/-- JSON string body after the opening quote. -/
def parseJStr : List Char → Except PyErr (String × List Char)
  | [] => .error (.jsonDecodeError "Unterminated string")
  | '"' :: rest => .ok ("", rest)
  | '\\' :: e :: rest =>
    match
      (match e with
       | '"' => some '"'
       | '\\' => some '\\'
       | '/' => some '/'
       | 'n' => some '\n'
       | 't' => some '\t'
       | 'r' => some '\r'
       | 'b' => some '\x08'
       | 'f' => some '\x0c'
       | _ => none) with
    | some c => (parseJStr rest).map (fun (s, r) => (String.mk (c :: s.toList), r))
    | none => .error (.jsonDecodeError "Invalid escape")
  | c :: rest => (parseJStr rest).map (fun (s, r) => (String.mk (c :: s.toList), r))

/-- Parser mode: a top-level value, or the item loop inside an object or
array with its accumulator. -/
inductive JMode where
  | top : JMode
  | objItems : List (String × Val) → JMode
  | arrItems : List Val → JMode

def digitsToNat (ds : List Char) : Nat :=
  ds.foldl (fun n c => n * 10 + (c.toNat - '0'.toNat)) 0

/-- Number literal (integer scope) starting at the given digits. -/
def parseJNum (neg : Bool) (cs : List Char) : Except PyErr (Val × List Char) :=
  match cs.takeWhile Char.isDigit, cs.dropWhile Char.isDigit with
  | [], _ => .error (.jsonDecodeError "Expecting value")
  | ds, r =>
    match r with
    | '.' :: _ => .error (.jsonDecodeError "float literal outside model scope")
    | 'e' :: _ => .error (.jsonDecodeError "float literal outside model scope")
    | 'E' :: _ => .error (.jsonDecodeError "float literal outside model scope")
    | _ =>
      let n : Int := digitsToNat ds
      .ok (Val.int (if neg then -n else n), r)

/-- The recursive-descent core of `json.loads`, fuel-indexed (each fuel
step consumes at least one character, so the fuel given by the wrapper suffices). -/
def parseJ : Nat → JMode → List Char → Except PyErr (Val × List Char)
  | 0, _, _ => .error (.jsonDecodeError "Expecting value")
  | fuel + 1, .top, cs =>
    match cs.dropWhile isJsonWS with
    | [] => .error (.jsonDecodeError "Expecting value")
    | '"' :: rest => (parseJStr rest).map (fun (s, r) => (Val.str s, r))
    | '\x7b' :: rest =>
      match rest.dropWhile isJsonWS with
      | '\x7d' :: rest2 => .ok (Val.dict [], rest2)
      | _ => parseJ fuel (.objItems []) rest
    | '[' :: rest =>
      match rest.dropWhile isJsonWS with
      | ']' :: rest2 => .ok (Val.list [], rest2)
      | _ => parseJ fuel (.arrItems []) rest
    | 't' :: rest =>
      if ['r', 'u', 'e'].isPrefixOf rest then .ok (Val.bool true, rest.drop 3)
      else .error (.jsonDecodeError "Expecting value")
    | 'f' :: rest =>
      if ['a', 'l', 's', 'e'].isPrefixOf rest then .ok (Val.bool false, rest.drop 4)
      else .error (.jsonDecodeError "Expecting value")
    | 'n' :: rest =>
      if ['u', 'l', 'l'].isPrefixOf rest then .ok (Val.null, rest.drop 3)
      else .error (.jsonDecodeError "Expecting value")
    | '-' :: rest => parseJNum true rest
    | c :: rest =>
      if c.isDigit then parseJNum false (c :: rest)
      else .error (.jsonDecodeError "Expecting value")
  | fuel + 1, .objItems acc, cs =>
    (match cs.dropWhile isJsonWS with
     | '"' :: rest =>
       (match parseJStr rest with
        | .error e => .error e
        | .ok (k, r1) =>
          (match r1.dropWhile isJsonWS with
           | ':' :: r2 =>
             (match parseJ fuel .top r2 with
              | .error e => .error e
              | .ok (v, r3) =>
                (match r3.dropWhile isJsonWS with
                 | ',' :: r4 => parseJ fuel (.objItems (dictSet acc k v)) r4
                 | '\x7d' :: r4 => .ok (Val.dict (dictSet acc k v), r4)
                 | _ => .error (.jsonDecodeError "Expecting delimiter")))
           | _ => .error (.jsonDecodeError "Expecting colon")))
     | _ => .error (.jsonDecodeError "Expecting property name"))
  | fuel + 1, .arrItems acc, cs =>
    (match parseJ fuel .top cs with
     | .error e => .error e
     | .ok (v, r1) =>
       (match r1.dropWhile isJsonWS with
        | ',' :: r2 => parseJ fuel (.arrItems (acc ++ [v])) r2
        | ']' :: r2 => .ok (Val.list (acc ++ [v]), r2)
        | _ => .error (.jsonDecodeError "Expecting delimiter")))

def json_loads (s : String) : Except PyErr Val :=
  match parseJ (s.toList.length + 2) .top s.toList with
  | .ok (v, rest) =>
    if (rest.dropWhile isJsonWS).isEmpty then .ok v
    else .error (.jsonDecodeError "Extra data")
  | .error e => .error e

/-! `fix_common_json_errors`: four sequential `re.sub` passes, each a
leftmost non-overlapping scan (resuming one character past a failed
candidate, right after a replaced one). -/

/-- Pass 1: single-quoted text directly before a colon becomes
double-quoted. -/
def sub1F : Nat → List Char → List Char
  | 0, cs => cs
  | _ + 1, [] => []
  | fuel + 1, '\x27' :: rest =>
    (match rest.dropWhile (· != '\x27') with
     | '\x27' :: ':' :: rest2 =>
       '"' :: (rest.takeWhile (· != '\x27') ++ '"' :: ':' :: sub1F fuel rest2)
     | _ => '\x27' :: sub1F fuel rest)
  | fuel + 1, c :: rest => c :: sub1F fuel rest

/-- Pass 2: a colon, optional whitespace, then a single-quoted value
becomes `: "value"`. -/
def sub2F : Nat → List Char → List Char
  | 0, cs => cs
  | _ + 1, [] => []
  | fuel + 1, ':' :: rest =>
    (match rest.dropWhile isPyWS with
     | '\x27' :: rest3 =>
       (match rest3.dropWhile (· != '\x27') with
        | '\x27' :: rest4 =>
          ':' :: ' ' :: '"' :: (rest3.takeWhile (· != '\x27') ++ '"' :: sub2F fuel rest4)
        | _ => ':' :: sub2F fuel rest)
     | _ => ':' :: sub2F fuel rest)
  | fuel + 1, c :: rest => c :: sub2F fuel rest

/-- Pass 3: a bare identifier key after `\x7b` or `,` gets quoted. -/
def sub3F : Nat → List Char → List Char
  | 0, cs => cs
  | _ + 1, [] => []
  | fuel + 1, c :: rest =>
    if c = '\x7b' || c = ',' then
      let ws1 := rest.takeWhile isPyWS
      let r2 := rest.dropWhile isPyWS
      let ident := r2.takeWhile isIdentChar
      let r3 := r2.dropWhile isIdentChar
      let ws2 := r3.takeWhile isPyWS
      match ident, r3.dropWhile isPyWS with
      | _ :: _, ':' :: rest5 =>
        c :: (ws1 ++ '"' :: (ident ++ '"' :: (ws2 ++ ':' :: sub3F fuel rest5)))
      | _, _ => c :: sub3F fuel rest
    else c :: sub3F fuel rest

/-- Pass 4: a trailing comma before `\x7d` or `]` is dropped. -/
def sub4F : Nat → List Char → List Char
  | 0, cs => cs
  | _ + 1, [] => []
  | fuel + 1, ',' :: rest =>
    (match rest.dropWhile isPyWS with
     | '\x7d' :: rest2 => '\x7d' :: sub4F fuel rest2
     | ']' :: rest2 => ']' :: sub4F fuel rest2
     | _ => ',' :: sub4F fuel rest)
  | fuel + 1, c :: rest => c :: sub4F fuel rest

def fix_common_json_errors (s : String) : String :=
  let l1 := sub1F s.toList.length s.toList
  let l2 := sub2F l1.length l1
  let l3 := sub3F l2.length l2
  String.mk (sub4F l3.length l3)

/-- Model of `parse_json_response`: extract, strict parse, one repair pass, absence
on failure. The `if not json_str` truthiness test treats the empty
extraction like absence. -/
def parse_json_response (text : String) : Option Val :=
  match extract_json_from_text text with
  | none => none
  | some js =>
    if js = "" then none
    else
      match json_loads js with
      | .ok v => some v
      | .error _ =>
        match json_loads (fix_common_json_errors js) with
        | .ok v => some v
        | .error _ => none


/-! ## Shared model-response handling

All four model-calling sites parse responses the same way: a string is
searched for an explicitly `json`-tagged fence (pattern three backticks,
`json`, lazy body, three backticks, DOTALL) and the group (or, failing
that, the whole string) is given to `json.loads`; a dict passes through;
anything else raises ValueError. The `ensure required fields` loop then
raises on non-dict parses (Python: TypeError/`in` failure), and every such
exception is caught by the except clause of the handler. (A response object
with a `.json()` method, accepted by one call site, is outside the value
model; no claim concerns it. A parsed JSON string that happens to contain
all required field names as substrings would be returned as-is by Python;
also outside the model and exercised by no claim.) -/

/-- Remainder after the first occurrence of `needle`, if any. -/
def findSub (needle : List Char) : List Char → Option (List Char)
  | [] => if needle.isEmpty then some [] else none
  | c :: rest =>
    if needle.isPrefixOf (c :: rest) then some ((c :: rest).drop needle.length)
    else findSub needle rest

/-- Model of the regex search for the `json`-tagged fence with DOTALL: group 1 runs from
after the first occurrence of backtick-backtick-backtick-`json` to the
earliest following triple backtick. -/
def fenceJsonSearch (cs : List Char) : Option (List Char) :=
  match findSub ['\x60', '\x60', '\x60', 'j', 's', 'o', 'n'] cs with
  | some after => findTripleContent after
  | none => none

def parseModelResponse (response : Val) : Except PyErr Val :=
  match response with
  | .str s =>
    (match fenceJsonSearch s.toList with
     | some content => json_loads (String.mk (stripChars content))
     | none => json_loads s)
  | .dict d => .ok (.dict d)
  | _ => .error (.valueError "Unexpected response format")

def ensureFields (v : Val) (keys : List String) (defaults : String → Val) :
    Except PyErr (List (String × Val)) :=
  match v with
  | .dict d => .ok (normalizeSchema d keys defaults)
  | _ => .error (.typeError "required-field loop on a non-dict parse")

/-- Python `str(e)` on the exceptions this code raises (modelled as the
carried message). -/
def pyErrStr : PyErr → String
  | .keyError m => m
  | .valueError m => m
  | .typeError m => m
  | .jsonDecodeError m => m

/-! ## Intent classifier (`src/prompts/shared/intent_classifier.py`) -/

def INTENT_CLASSIFIER_PROMPT : String :=
  "\nYou are an educational assistant that helps students with various subjects. Given a student\x27s question, your task is to:\n" ++
  "1. Identify the subject the question relates to (Reading, Science, Math, or Other)\n" ++
  "2. Determine the specific type of question\n3. Assess the complexity level\n4. Decide if this needs human teacher intervention\n" ++
  "\nStudent Query: \"$\x7bquery\x7d\"\n\nPlease classify the intent and respond in JSON format:\n" ++
  "\n\x60\x60\x60json\n\x7b\n    \"subject\": \"reading|science|math|other\",\n    \"query_type\": \"explanation|question|problem_solving|factual|comprehension|other\",\n" ++
  "    \"grade_level\": \"elementary|middle|high|college|unknown\",\n    \"complexity\": \"basic|intermediate|advanced\",\n" ++
  "    \"needs_human_teacher\": false,\n    \"reason\": \"Brief explanation of your classification\"\n" ++
  "\x7d\n\x60\x60\x60\n"

def intent_classifier_template : PromptTemplate :=
  { template_text := INTENT_CLASSIFIER_PROMPT }

def READING_PATTERNS : List String :=
  ["read", "book", "story", "paragraph", "passage", "character", "plot", "author",
   "comprehension", "summary", "theme", "literacy", "literature", "fiction", "nonfiction"]

def SCIENCE_PATTERNS : List String :=
  ["science", "biology", "chemistry", "physics", "atom", "molecule", "cell", "orbit",
   "energy", "force", "experiment", "reaction", "ecosystem", "organism", "planet",
   "solar", "element", "compound", "theory", "hypothesis"]

def MATH_PATTERNS : List String :=
  ["math", "equation", "number", "algebra", "geometry", "calculus", "fraction",
   "decimal", "percent", "addition", "subtraction", "multiplication", "division",
   "formula", "function", "graph", "variable", "solve", "calculation"]

def SUBJECT_PATTERNS : List (String × List String) :=
  [("reading", READING_PATTERNS),
   ("science", SCIENCE_PATTERNS),
   ("math", MATH_PATTERNS)]

/-- Hit count of one keyword set against the lowercased query. -/
def subjectScore (q : String) (pats : List String) : Nat :=
  (pats.filter (fun p => strContains q p)).length

/-- Model of `quick_subject_classifier`: score each subject, take the maximum; when
it is positive return the first subject (in `SUBJECT_PATTERNS` order)
attaining it, else `"other"`. -/
def quick_subject_classifier (query : String) : String :=
  let q := lowerStr query
  let subject_scores := SUBJECT_PATTERNS.map (fun sp => (sp.1, subjectScore q sp.2))
  let max_score := (subject_scores.map Prod.snd).foldl Nat.max 0
  if max_score > 0 then
    match subject_scores.find? (fun p => p.2 == max_score) with
    | some p => p.1
    | none => "other"
  else "other"

/-- The fixed-shape intent result built on the no-backend and on the
parse-failure paths (they differ only in the reason text). -/
def intentFallback (query : String) (reason : String) : List (String × Val) :=
  [("subject", .str (quick_subject_classifier query)),
   ("query_type", .str "unknown"),
   ("grade_level", .str "unknown"),
   ("complexity", .str "unknown"),
   ("needs_human_teacher", .bool false),
   ("reason", .str reason)]

/-- Model of `classify_educational_intent`. The `model_fn(prompt)` call sits outside
the `try:` block in the source; an exception it raises propagates. -/
def classify_educational_intent (query : String)
    (model_fn : Option (String → Except PyErr Val)) :
    Except PyErr (List (String × Val)) :=
  match model_fn with
  | none => .ok (intentFallback query "Classification based on keyword matching only")
  | some f =>
    match intent_classifier_template.render [("query", query)] with
    | .error e => .error e
    | .ok prompt =>
      match f prompt with
      | .error e => .error e
      | .ok response =>
        match (parseModelResponse response).bind
            (fun v => ensureFields v ["subject", "query_type", "complexity"]
              (fun _ => .str "unknown")) with
        | .ok d => .ok d
        | .error e => .ok (intentFallback query ("Error parsing response: " ++ pyErrStr e))

/-! ## Escalation engine (`src/prompts/shared/escalation_handler.py`) -/

def ESCALATION_PROMPT : String :=
  "\nYou are an AI educational assistant deciding whether to escalate a student\x27s question to a human teacher.\n" ++
  "\nContext:\n- Subject: $\x7bsubject\x7d\n- Student Grade Level: $\x7bgrade_level\x7d\n" ++
  "- Query Type: $\x7bquery_type\x7d\n- Previous AI Responses: $\x7bprevious_responses\x7d\n" ++
  "- Student\x27s Initial Question: \"$\x7bstudent_question\x7d\"\n- Student\x27s Follow-up: \"$\x7bstudent_followup\x7d\"\n" ++
  "- Number of back-and-forth exchanges: $\x7bexchange_count\x7d\n\nReasons to escalate to a human teacher include:\n" ++
  "1. Question is too complex for an AI to answer accurately\n2. Student shows frustration or confusion after multiple explanation attempts\n" ++
  "3. Question requires subjective judgment that only a human teacher can provide\n4. Student explicitly requests to speak with a human teacher\n" ++
  "5. Topic requires specialized expertise or current information\n6. Question may involve sensitive educational topics best handled by a human\n" ++
  "\nDetermine if this query should be escalated to a human teacher.\nRespond with a JSON object:\n" ++
  "\n\x60\x60\x60json\n\x7b\n    \"escalate\": true/false,\n    \"reason\": \"Brief explanation of why escalation is needed or not needed\",\n" ++
  "    \"suggested_action\": \"connect_to_teacher|provide_alternative_resources|simplify_explanation|other\",\n" ++
  "    \"suggested_time\": \"immediate|end_of_day|scheduled\",\n    \"priority\": \"low|medium|high\",\n" ++
  "    \"teacher_note\": \"Brief note for the teacher about the student\x27s question\"\n" ++
  "\x7d\n\x60\x60\x60\n"

def escalation_template : PromptTemplate := { template_text := ESCALATION_PROMPT }

def MAX_EXCHANGES_BEFORE_ESCALATION : Nat := 5

def FRUSTRATION_KEYWORDS : List String :=
  ["i don\x27t understand", "confused", "not clear", "doesn\x27t make sense",
   "still don\x27t get it", "i\x27m lost", "too complicated", "help", "difficult",
   "what do you mean", "explain again", "i\x27m not following"]

def human_requests : List String :=
  ["can i talk to a human", "can i talk to a teacher", "i want to talk to a teacher",
   "can i speak with a person", "connect me with a teacher", "human teacher",
   "real person", "speak to someone", "talk to someone", "human tutor"]

/-- Model of `check_for_escalation_signals`: any explicit human-assistance phrase,
or at least two distinct frustration keywords, in the lowercased input. -/
def check_for_escalation_signals (student_input : String) : Bool :=
  let s := lowerStr student_input
  if human_requests.any (fun r => strContains s r) then true
  else if 2 ≤ FRUSTRATION_KEYWORDS.countP (fun k => strContains s k) then true
  else false

def escalationSignalDict (student_question : String) : List (String × Val) :=
  [("escalate", .bool true),
   ("reason", .str "Student appears frustrated or explicitly requested human assistance"),
   ("suggested_action", .str "connect_to_teacher"),
   ("suggested_time", .str "immediate"),
   ("priority", .str "high"),
   ("teacher_note", .str ("Student asked: \x27" ++ student_question ++
     "\x27 and seems unsatisfied with AI responses"))]

def escalationExchangeDict (student_question : String) : List (String × Val) :=
  [("escalate", .bool true),
   ("reason", .str "Reached maximum of 5 exchanges without resolution"),
   ("suggested_action", .str "connect_to_teacher"),
   ("suggested_time", .str "end_of_day"),
   ("priority", .str "medium"),
   ("teacher_note", .str ("Multiple attempts to answer: \x27" ++ student_question ++
     "\x27. Consider reviewing conversation."))]

def escalationDefaultDict : List (String × Val) :=
  [("escalate", .bool false),
   ("reason", .str "No clear signals for escalation detected"),
   ("suggested_action", .str "continue_assistance"),
   ("suggested_time", .str "not_applicable"),
   ("priority", .str "low"),
   ("teacher_note", .str "")]

def formatPrevResponses (previous_responses : List String) : String :=
  String.intercalate "\n"
    (previous_responses.enum.map
      (fun p => "Response " ++ toString (p.1 + 1) ++ ": " ++ p.2))

def escalationFieldDefault (k : String) : Val :=
  if k = "escalate" then .bool false else .str "unknown"

/-- Model of `should_escalate`, decision precedence as in the source: signal check
first, then the exchange-count ceiling, then (with a collaborator) the
model-assisted path whose parse failures fall through to the default; the
collaborator call itself sits outside the `try:`. -/
def should_escalate (student_question student_followup subject grade_level
    query_type : String) (previous_responses : List String)
    (exchange_count : Nat) (model_fn : Option (String → Except PyErr Val)) :
    Except PyErr (List (String × Val)) :=
  if check_for_escalation_signals student_followup then
    .ok (escalationSignalDict student_question)
  else if MAX_EXCHANGES_BEFORE_ESCALATION ≤ exchange_count then
    .ok (escalationExchangeDict student_question)
  else
    match model_fn with
    | none => .ok escalationDefaultDict
    | some f =>
      match escalation_template.render
          [("subject", subject), ("grade_level", grade_level),
           ("query_type", query_type),
           ("previous_responses", formatPrevResponses previous_responses),
           ("student_question", student_question),
           ("student_followup", student_followup),
           ("exchange_count", toString exchange_count)] with
      | .error e => .error e
      | .ok prompt =>
        match f prompt with
        | .error e => .error e
        | .ok response =>
          match (parseModelResponse response).bind
              (fun v => ensureFields v ["escalate", "reason", "suggested_action"]
                escalationFieldDefault) with
          | .ok d => .ok d
          | .error _ => .ok escalationDefaultDict

/-! ## Reading handlers (`src/prompts/reading/`) -/

def READING_DIFFICULTY_PROMPT : String :=
  "\nYou are an educational assistant specializing in reading comprehension. Your task is to analyze a text passage and determine its reading difficulty level.\n" ++
  "\nText Passage:\n$\x7bpassage\x7d\n\nAnalyze the passage for:\n1. Lexile level range (if possible to determine)\n" ++
  "2. Grade level appropriateness\n3. Vocabulary complexity\n4. Sentence structure complexity\n" ++
  "5. Conceptual difficulty\n6. Background knowledge requirements\n\nRespond with a structured analysis in JSON format:\n" ++
  "\n\x60\x60\x60json\n\x7b\n    \"lexile_range\": \"XXL-YYL or \x27unable to determine\x27\",\n" ++
  "    \"grade_level\": \"elementary (K-5)|middle (6-8)|high (9-12)|college\",\n    \"vocabulary_complexity\": \"simple|moderate|advanced\",\n" ++
  "    \"sentence_complexity\": \"simple|moderate|complex\",\n    \"conceptual_difficulty\": \"concrete|moderate|abstract\",\n" ++
  "    \"background_knowledge_required\": \"minimal|moderate|extensive\",\n    \"overall_difficulty\": \"beginner|basic|intermediate|advanced|expert\",\n" ++
  "    \"challenging_vocabulary\": [\"list\", \"of\", \"potentially\", \"challenging\", \"words\"],\n" ++
  "    \"notes\": \"Additional observations about the text\"\n\x7d\n\x60\x60\x60\n"

def reading_difficulty_template : PromptTemplate :=
  { template_text := READING_DIFFICULTY_PROMPT }

def readingFallbackDict (e : PyErr) : List (String × Val) :=
  [("lexile_range", .str "unable to determine"),
   ("grade_level", .str "unknown"),
   ("vocabulary_complexity", .str "unknown"),
   ("sentence_complexity", .str "unknown"),
   ("conceptual_difficulty", .str "unknown"),
   ("background_knowledge_required", .str "unknown"),
   ("overall_difficulty", .str "unknown"),
   ("challenging_vocabulary", .list []),
   ("notes", .str ("Error analyzing passage: " ++ pyErrStr e))]

/-- Model of `classify_reading_difficulty` (`model_fn` is a required argument in
the source); the `model_fn(prompt)` call sits outside the `try:`. -/
def classify_reading_difficulty (passage : String)
    (model_fn : String → Except PyErr Val) : Except PyErr (List (String × Val)) :=
  match reading_difficulty_template.render [("passage", passage)] with
  | .error e => .error e
  | .ok prompt =>
    match model_fn prompt with
    | .error e => .error e
    | .ok response =>
      match (parseModelResponse response).bind
          (fun v => ensureFields v
            ["grade_level", "vocabulary_complexity", "overall_difficulty"]
            (fun _ => .str "unknown")) with
      | .ok d => .ok d
      | .error e => .ok (readingFallbackDict e)

def COMPREHENSION_QUESTION_PROMPT : String :=
  "\nYou are an educational assistant specializing in reading comprehension. Based on the following paragraph, generate a multiple-choice question that checks comprehension.\n" ++
  "\nText Passage:\n$\x7bparagraph\x7d\n\nReading Level: $\x7bgrade_level\x7d\nQuestion Type: $\x7bquestion_type\x7d\n" ++
  "\nGenerate a multiple-choice question that:\n1. Tests understanding of the main idea, key details, vocabulary, inference, or author\x27s purpose\n" ++
  "2. Is appropriate for the specified grade level\n3. Has one clearly correct answer and three plausible distractors\n" ++
  "4. Includes an explanation for why each option is correct or incorrect\n\nRespond with a structured question in JSON format:\n" ++
  "\n\x60\x60\x60json\n\x7b\n    \"question\": \"The comprehensive question text\",\n" ++
  "    \"options\": [\n        \"Option A\",\n        \"Option B\",\n        \"Option C\",\n" ++
  "        \"Option D\"\n    ],\n    \"correct_option_index\": 0,\n    \"skill_tested\": \"main_idea|key_detail|vocabulary|inference|authors_purpose\",\n" ++
  "    \"explanations\": \x7b\n        \"A\": \"Explanation for why option A is correct/incorrect\",\n" ++
  "        \"B\": \"Explanation for why option B is correct/incorrect\",\n        \"C\": \"Explanation for why option C is correct/incorrect\",\n" ++
  "        \"D\": \"Explanation for why option D is correct/incorrect\"\n    \x7d,\n" ++
  "    \"follow_up_question\": \"An open-ended follow-up question to extend thinking\"\n" ++
  "\x7d\n\x60\x60\x60\n"

def comprehension_question_template : PromptTemplate :=
  { template_text := COMPREHENSION_QUESTION_PROMPT }

def QUESTION_TYPES : List String :=
  ["main_idea", "key_detail", "vocabulary", "inference", "authors_purpose",
   "character_analysis", "cause_effect", "compare_contrast", "sequence",
   "text_structure"]

def comprehensionPlaceholderDict (question_type : String) : List (String × Val) :=
  [("question", .str ("[Question about " ++ question_type ++ " would be generated here]")),
   ("options", .list [.str "[Option A]", .str "[Option B]", .str "[Option C]", .str "[Option D]"]),
   ("correct_option_index", .int 0),
   ("skill_tested", .str question_type),
   ("explanations", .dict [("A", .str "[Explanation A]"), ("B", .str "[Explanation B]"),
     ("C", .str "[Explanation C]"), ("D", .str "[Explanation D]")]),
   ("follow_up_question", .str "[Follow-up question]")]

def comprehensionFallbackDict (question_type : String) (e : PyErr) :
    List (String × Val) :=
  [("question", .str "Error generating question"),
   ("options", .list [.str "Option A", .str "Option B", .str "Option C", .str "Option D"]),
   ("correct_option_index", .int 0),
   ("skill_tested", .str question_type),
   ("explanations", .dict [("A", .str "Error explanation"), ("B", .str "Error explanation"),
     ("C", .str "Error explanation"), ("D", .str "Error explanation")]),
   ("follow_up_question", .str ("Error generating follow-up: " ++ pyErrStr e))]

def comprehensionFieldDefault (k : String) : Val :=
  if k = "options" then
    .list [.str "[Option A]", .str "[Option B]", .str "[Option C]", .str "[Option D]"]
  else if k = "correct_option_index" then .int 0
  else .str ("[Missing " ++ k ++ "]")

/-- Model of `generate_comprehension_question`: clamp `question_type` to the fixed
set, render (before the no-backend check, as in the source), placeholder
without a collaborator; the collaborator call sits outside the `try:`. -/
def generate_comprehension_question (paragraph : String)
    (grade_level : String := "middle") (question_type : String := "main_idea")
    (model_fn : Option (String → Except PyErr Val) := none) :
    Except PyErr (List (String × Val)) :=
  let qt := if QUESTION_TYPES.contains question_type then question_type else "main_idea"
  match comprehension_question_template.render
      [("paragraph", paragraph), ("grade_level", grade_level), ("question_type", qt)] with
  | .error e => .error e
  | .ok prompt =>
    match model_fn with
    | none => .ok (comprehensionPlaceholderDict qt)
    | some f =>
      match f prompt with
      | .error e => .error e
      | .ok response =>
        match (parseModelResponse response).bind
            (fun v => ensureFields v ["question", "options", "correct_option_index"]
              comprehensionFieldDefault) with
        | .ok d => .ok d
        | .error e => .ok (comprehensionFallbackDict qt e)

/-! ## Science classifier (`src/prompts/science/classify_science_doubt.py`) -/

def CLASSIFY_SCIENCE_DOUBT_PROMPT : String :=
  "\nYou are a science teacher analyzing a student\x27s question or doubt. Your task is to classify the question to better address the student\x27s learning needs.\n" ++
  "\nStudent Question: \"$\x7bstudent_question\x7d\"\n\nPlease analyze the question for:\n" ++
  "1. Science subject area (physics, chemistry, biology, earth science, etc.)\n2. Specific topic within that subject\n" ++
  "3. Type of question (factual, conceptual, procedural, application, analytical)\n4. Misconceptions or knowledge gaps that might be present\n" ++
  "5. Grade level appropriate for the question\n6. Complexity level\n7. Prior knowledge needed to understand the answer\n" ++
  "\nRespond with a structured analysis in JSON format:\n\n\x60\x60\x60json\n\x7b\n    \"subject\": \"physics|chemistry|biology|earth_science|astronomy|environmental_science|other\",\n" ++
  "    \"specific_topic\": \"The specific scientific topic\",\n    \"question_type\": \"factual|conceptual|procedural|application|analytical\",\n" ++
  "    \"potential_misconceptions\": [\"Potential misconception 1\", \"Potential misconception 2\"],\n" ++
  "    \"grade_level\": \"elementary|middle|high|college\",\n    \"complexity\": \"basic|intermediate|advanced\",\n" ++
  "    \"prior_knowledge_needed\": [\"Concept 1\", \"Concept 2\"],\n    \"concepts_to_explain\": [\"Key concept 1\", \"Key concept 2\"],\n" ++
  "    \"suggested_visual_aids\": [\"Diagram type 1\", \"Diagram type 2\"],\n    \"real_world_connection\": \"How this connects to everyday experience\"\n" ++
  "\x7d\n\x60\x60\x60\n"

def classify_science_doubt_template : PromptTemplate :=
  { template_text := CLASSIFY_SCIENCE_DOUBT_PROMPT }

/-- The no-backend subject chain of `classify_science_doubt`. -/
def scienceQuickSubject (student_question : String) : String :=
  let q := lowerStr student_question
  if ["force", "motion", "energy", "gravity", "light", "wave", "electricity",
      "magnet"].any (fun t => strContains q t) then "physics"
  else if ["element", "compound", "reaction", "molecule", "atom", "acid", "base",
      "solution"].any (fun t => strContains q t) then "chemistry"
  else if ["cell", "organism", "animal", "plant", "dna", "evolution", "ecosystem",
      "body", "organ"].any (fun t => strContains q t) then "biology"
  else if ["earth", "rock", "mineral", "volcano", "earthquake", "weather",
      "climate"].any (fun t => strContains q t) then "earth_science"
  else if ["star", "planet", "galaxy", "universe", "solar",
      "space"].any (fun t => strContains q t) then "astronomy"
  else "other"

def scienceNoBackendDict (subject : String) : List (String × Val) :=
  [("subject", .str subject),
   ("specific_topic", .str "unknown"),
   ("question_type", .str "unknown"),
   ("potential_misconceptions", .list []),
   ("grade_level", .str "unknown"),
   ("complexity", .str "unknown"),
   ("prior_knowledge_needed", .list []),
   ("concepts_to_explain", .list []),
   ("suggested_visual_aids", .list []),
   ("real_world_connection", .str "")]

def scienceFallbackDict (e : PyErr) : List (String × Val) :=
  [("subject", .str "unknown"),
   ("specific_topic", .str "unknown"),
   ("question_type", .str "unknown"),
   ("potential_misconceptions", .list []),
   ("grade_level", .str "unknown"),
   ("complexity", .str "unknown"),
   ("prior_knowledge_needed", .list []),
   ("concepts_to_explain", .list []),
   ("suggested_visual_aids", .list []),
   ("real_world_connection", .str ("Error: " ++ pyErrStr e))]

/-- Model of `classify_science_doubt`: render first (as in the source), keyword
fallback without a collaborator, else call-parse-normalize with the
collaborator call outside the `try:`. -/
def classify_science_doubt (student_question : String)
    (model_fn : Option (String → Except PyErr Val) := none) :
    Except PyErr (List (String × Val)) :=
  match classify_science_doubt_template.render
      [("student_question", student_question)] with
  | .error e => .error e
  | .ok prompt =>
    match model_fn with
    | none => .ok (scienceNoBackendDict (scienceQuickSubject student_question))
    | some f =>
      match f prompt with
      | .error e => .error e
      | .ok response =>
        match (parseModelResponse response).bind
            (fun v => ensureFields v
              ["subject", "specific_topic", "question_type", "grade_level", "complexity"]
              (fun _ => .str "unknown")) with
        | .ok d => .ok d
        | .error e => .ok (scienceFallbackDict e)

/-! ## Orchestrator (`src/main.py`)

`main.py` defines its own mock versions of the classifier/handler/escalation
functions (it does not import the real ones); `process_student_input` and
its two subject paths run entirely against those mocks plus
`mock_model_fn`. The `Main` namespace mirrors that module. -/

namespace Main

def MOCK_READING_DIFFICULTY : List (String × Val) :=
  [("lexile_range", .str "800L-900L"),
   ("grade_level", .str "middle"),
   ("vocabulary_complexity", .str "moderate"),
   ("sentence_complexity", .str "moderate"),
   ("conceptual_difficulty", .str "concrete"),
   ("background_knowledge_required", .str "minimal"),
   ("overall_difficulty", .str "intermediate"),
   ("challenging_vocabulary", .list [.str "evaporation", .str "condensation",
     .str "precipitation"]),
   ("notes", .str "This passage explains the water cycle in simple terms.")]

def MOCK_COMPREHENSION_QUESTION : List (String × Val) :=
  [("question", .str "What is the main process described in this passage?"),
   ("options", .list [.str "The water cycle", .str "Plant photosynthesis",
     .str "Weather prediction", .str "Ocean currents"]),
   ("correct_option_index", .int 0),
   ("skill_tested", .str "main_idea"),
   ("explanations", .dict [
     ("A", .str "Correct. The passage describes the water cycle, including evaporation, condensation, and precipitation."),
     ("B", .str "Incorrect. The passage does not mention photosynthesis or plants."),
     ("C", .str "Incorrect. While related to weather, the passage is about the water cycle, not weather prediction."),
     ("D", .str "Incorrect. The passage mentions oceans but does not discuss ocean currents.")]),
   ("follow_up_question", .str "Can you explain how evaporation contributes to the water cycle?")]

def MOCK_SCIENCE_DOUBT : List (String × Val) :=
  [("subject", .str "biology"),
   ("specific_topic", .str "photosynthesis"),
   ("question_type", .str "conceptual"),
   ("potential_misconceptions", .list [.str "Plants eat soil for food",
     .str "Photosynthesis only happens during daytime"]),
   ("grade_level", .str "middle"),
   ("complexity", .str "intermediate"),
   ("prior_knowledge_needed", .list [.str "Plant cells", .str "Cellular energy"]),
   ("concepts_to_explain", .list [.str "Chlorophyll function",
     .str "Light energy conversion"]),
   ("suggested_visual_aids", .list [.str "Photosynthesis diagram",
     .str "Plant cell structure"]),
   ("real_world_connection", .str "Plants use sunlight to produce the oxygen we breathe and food we eat")]

def MOCK_SCIENCE_EXPLANATION : List (String × Val) :=
  [("concept_name", .str "Photosynthesis"),
   ("brief_definition", .str "Photosynthesis is the process by which plants convert light energy into chemical energy to fuel their activities."),
   ("detailed_explanation", .str "During photosynthesis, plants use energy from sunlight, along with water and carbon dioxide, to create glucose (a sugar) and oxygen. This process takes place in the chloroplasts of plant cells, which contain a green pigment called chlorophyll that absorbs light energy. The overall chemical equation for photosynthesis is: 6CO₂ + 6H₂O + light energy → C₆H₁₂O₆ + 6O₂. The glucose produced provides energy for the plant, while the oxygen is released into the atmosphere."),
   ("real_world_examples", .list [
     .str "A sunflower turning to face the sun to maximize light absorption for photosynthesis",
     .str "Aquatic plants in a fish tank producing oxygen bubbles during daylight hours"]),
   ("helpful_analogies", .list [
     .str "Photosynthesis is like a solar-powered food factory inside plants",
     .str "Chloroplasts work like solar panels, capturing energy from sunlight"]),
   ("common_misconceptions", .list [
     .str "Plants do not \x27eat\x27 soil - they get nutrients from soil but their food comes from photosynthesis",
     .str "While photosynthesis requires light, some steps of the process continue in darkness"]),
   ("key_vocabulary", .list [
     .dict [("term", .str "Chlorophyll"),
       ("definition", .str "Green pigment in plants that absorbs light energy")],
     .dict [("term", .str "Chloroplast"),
       ("definition", .str "Plant cell structure where photosynthesis occurs")],
     .dict [("term", .str "Glucose"),
       ("definition", .str "Sugar produced during photosynthesis that provides energy")]]),
   ("check_understanding", .list [
     .str "What three ingredients do plants need for photosynthesis?",
     .str "What two products result from photosynthesis?"]),
   ("further_exploration", .list [
     .str "Observe how plants grow differently in various light conditions",
     .str "Learn about how different wavelengths of light affect photosynthesis"])]

/-- Escape for `json.dumps` string output (quote and backslash; the
`ensure_ascii` escaping of non-ASCII characters is not modelled — the mock
responses are only ever consumed by handlers that ignore them). -/
def escapeJStr (s : String) : String :=
  String.mk (s.toList.flatMap
    (fun c => if c = '"' then ['\\', '"']
      else if c = '\\' then ['\\', '\\'] else [c]))

/-- Model of `json.dumps` with its default `", "`/`": "` separators; fuel covers the
nesting depth (the mock values have depth at most 3). -/
def dumpsV : Nat → Val → String
  | 0, _ => ""
  | fuel + 1, v =>
    match v with
    | .str s => "\"" ++ escapeJStr s ++ "\""
    | .int n => toString n
    | .bool b => if b then "true" else "false"
    | .null => "null"
    | .list l => "[" ++ String.intercalate ", " (l.map (fun x => dumpsV fuel x)) ++ "]"
    | .dict d =>
      "\x7b" ++ String.intercalate ", "
        (d.map (fun kv => "\"" ++ escapeJStr kv.1 ++ "\": " ++ dumpsV fuel kv.2)) ++ "\x7d"

def json_dumps (v : Val) : String := dumpsV 16 v

/-- Model of `mock_model_fn`. The `json.dumps` literal of the generic branch (whose dict
holds the float `0.95`, outside the value model) is constant-folded to the
string Python produces. -/
def mock_model_fn (prompt : String) : String :=
  let p := lowerStr prompt
  if strContains p "photosynthesis" then
    (if strContains p "classify" then json_dumps (.dict MOCK_SCIENCE_DOUBT)
     else json_dumps (.dict MOCK_SCIENCE_EXPLANATION))
  else if strContains p "water cycle" then
    (if strContains p "difficulty" then json_dumps (.dict MOCK_READING_DIFFICULTY)
     else json_dumps (.dict MOCK_COMPREHENSION_QUESTION))
  else
    "\x7b\"mock_response\": \"This is a mock response from the model\", \"confidence\": 0.95, \"generated_text\": \"Here\x27s a helpful explanation...\"\x7d"

def create_model_function : String → String := mock_model_fn

/-- Mock from `main.py`: `classify_educational_intent` (keyword branches on the
lowercased query; the optional `model_fn` argument is ignored). -/
def classify_educational_intent (query : String) : List (String × Val) :=
  let q := lowerStr query
  if strContains q "photosynthesis" || strContains q "plants" then
    [("subject", .str "science"), ("query_type", .str "explanation"),
     ("grade_level", .str "middle"), ("complexity", .str "intermediate"),
     ("needs_human_teacher", .bool false),
     ("reason", .str "Basic science concept question")]
  else if strContains q "water cycle" then
    [("subject", .str "reading"), ("query_type", .str "comprehension"),
     ("grade_level", .str "middle"), ("complexity", .str "basic"),
     ("needs_human_teacher", .bool false),
     ("reason", .str "Reading passage analysis")]
  else if strContains q "author" || strContains q "mean" then
    [("subject", .str "reading"), ("query_type", .str "inference"),
     ("grade_level", .str "high"), ("complexity", .str "intermediate"),
     ("needs_human_teacher", .bool false),
     ("reason", .str "Reading comprehension question")]
  else
    [("subject", .str "other"), ("query_type", .str "unknown"),
     ("grade_level", .str "unknown"), ("complexity", .str "unknown"),
     ("needs_human_teacher", .bool false),
     ("reason", .str "Unable to classify intent")]

/-- Mock from `main.py`: `should_escalate` (ignores every argument). -/
def should_escalate : List (String × Val) :=
  [("escalate", .bool false),
   ("reason", .str "No need for escalation in this demo"),
   ("suggested_action", .str "continue_assistance"),
   ("suggested_time", .str "not_applicable"),
   ("priority", .str "low"),
   ("teacher_note", .str "")]

/-- Mock from `main.py`: `classify_reading_difficulty` (ignores its
arguments). -/
def classify_reading_difficulty (_passage : String) : List (String × Val) :=
  MOCK_READING_DIFFICULTY

/-- Mock from `main.py`: `generate_comprehension_question` (ignores its
arguments). -/
def generate_comprehension_question (_paragraph : String) (_grade_level : Val) :
    List (String × Val) :=
  MOCK_COMPREHENSION_QUESTION

/-- Mock from `main.py`: `classify_science_doubt` (ignores its arguments). -/
def classify_science_doubt (_student_question : String) : List (String × Val) :=
  MOCK_SCIENCE_DOUBT

/-- Mock from `main.py`: `explain_science_concept` (ignores its arguments). -/
def explain_science_concept (_concept _grade_level _difficulty : Val) :
    List (String × Val) :=
  MOCK_SCIENCE_EXPLANATION

/-- Mock from `main.py`: `generate_understanding_check` (ignores its
arguments). -/
def generate_understanding_check (_explanation : Val) (_topic : Val)
    (_grade_level : String) : String :=
  "Do you understand how photosynthesis works now? Can you tell me why plants need sunlight for this process?"

/-- Python `d.get(k, default)`. -/
def pyGet (d : List (String × Val)) (k : String) (default : Val) : Val :=
  (pyLookup d k).getD default

/-- Python `value == "literal"` for a dynamically typed value. -/
def valEqStr (v : Val) (s : String) : Bool :=
  match v with
  | .str t => t = s
  | _ => false

/-- Python `len(student_input.split())`: number of maximal non-whitespace runs. -/
def countWordsF : Nat → List Char → Nat
  | 0, _ => 0
  | _ + 1, [] => 0
  | fuel + 1, c :: rest =>
    if isPyWS c then countWordsF fuel rest
    else 1 + countWordsF fuel ((c :: rest).dropWhile (fun ch => !isPyWS ch))

def wordCount (s : String) : Nat := countWordsF s.toList.length s.toList

/-- Model of `process_reading_question` over the mocks of the module (the created
`model_fn` is passed to the mocks, which ignore it). -/
def process_reading_question (student_input : String)
    (grade_level : String := "middle") : List (String × Val) :=
  let is_passage := 30 < wordCount student_input
  if is_passage then
    let difficulty_data := classify_reading_difficulty student_input
    let question_data := generate_comprehension_question student_input
      (pyGet difficulty_data "grade_level" (.str grade_level))
    [("passage_analysis", .dict difficulty_data),
     ("generated_question", .dict question_data),
     ("response_type", .str "reading_passage_analysis")]
  else
    let intent_data := classify_educational_intent student_input
    let q := lowerStr student_input
    if strContains q "author" || strContains q "mean" then
      [("intent", .dict intent_data),
       ("message", .str "The phrase \x27The pen is mightier than the sword\x27 is a metonymy that suggests written words (the pen) have more influence over people and events than direct physical force or violence (the sword). It means that communication, education, and ideas can be more powerful and effective for changing the world than military might or physical conflict."),
       ("response_type", .str "reading_explanation")]
    else
      [("intent", .dict intent_data),
       ("message", .str "I\x27d be happy to help with your reading question. Could you provide a specific passage or quote you\x27d like to analyze?"),
       ("response_type", .str "reading_question_answer")]

/-- Model of `process_science_question` over the mocks of the module. -/
def process_science_question (student_input : String)
    (grade_level : String := "middle") : List (String × Val) :=
  let doubt_data := classify_science_doubt student_input
  let topic := pyGet doubt_data "specific_topic" (.str "unknown")
  let explanation_data := explain_science_concept topic
    (pyGet doubt_data "grade_level" (.str grade_level))
    (pyGet doubt_data "complexity" (.str "basic"))
  let understanding_check := generate_understanding_check
    (pyGet explanation_data "detailed_explanation" (.str "")) topic grade_level
  [("doubt_classification", .dict doubt_data),
   ("explanation", .dict explanation_data),
   ("understanding_check", .str understanding_check),
   ("response_type", .str "science_explanation")]

/-- Model of `process_student_input`: classify, dispatch on subject, then attach
the intent and the (mock) escalation decision to the response record. -/
def process_student_input (student_input : String)
    (grade_level : String := "middle") : List (String × Val) :=
  let intent_data := classify_educational_intent student_input
  let subject := pyGet intent_data "subject" (.str "general")
  let response_data :=
    if valEqStr subject "reading" then
      process_reading_question student_input grade_level
    else if ["science", "physics", "chemistry", "biology", "earth_science",
        "astronomy"].any (fun s => valEqStr subject s) then
      process_science_question student_input grade_level
    else
      [("intent", .dict intent_data),
       ("message", .str "I\x27m not sure how to help with that subject yet. Can you ask me a question about reading or science?"),
       ("response_type", .str "unsupported_subject")]
  let response_data := dictSet response_data "intent" (.dict intent_data)
  let escalation_data := should_escalate
  dictSet response_data "escalation" (.dict escalation_data)

end Main

/-! ## Heap view of the `combine_templates` metadata loop

Python lists are heap objects: `combined_metadata[key] = value` stores a
reference, and `combined_metadata[key].extend(...)` / `.append(...)` then
mutate the referenced list in place — also when that list is owned by the metadata of an input template. This small heap model makes that observable:
list values are references into a heap of list cells; scalar and dict
values stay immediate (the loop never mutates those). The pair-collision
branch allocates a fresh two-element list, as in the source. -/

inductive HVal where
  | imm : Val → HVal
  | ref : Nat → HVal

def heapGet (h : List (List HVal)) (i : Nat) : List HVal := h.getD i []

def heapSet (h : List (List HVal)) (i : Nat) (x : List HVal) :
    List (List HVal) := h.set i x

structure CombSt where
  heap : List (List HVal)
  combined : List (String × HVal)

def combineMetaStepH (st : CombSt) (kv : String × HVal) : CombSt :=
  match pyLookup st.combined kv.1 with
  | some (HVal.ref i) =>
    (match kv.2 with
     | HVal.ref j =>
       { st with heap := heapSet st.heap i (heapGet st.heap i ++ heapGet st.heap j) }
     | v => { st with heap := heapSet st.heap i (heapGet st.heap i ++ [v]) })
  | some v =>
    let n := st.heap.length
    { heap := st.heap ++ [[v, kv.2]],
      combined := dictSet st.combined kv.1 (HVal.ref n) }
  | none => { st with combined := dictSet st.combined kv.1 kv.2 }

/-- The metadata loop of `combine_templates` on the heap view, starting
from the given heap (owning the input templates' list values) and an empty
combined dict. -/
def combineMetadataH (heap : List (List HVal))
    (metas : List (List (String × HVal))) : CombSt :=
  metas.foldl (fun st m => m.foldl combineMetaStepH st) { heap := heap, combined := [] }


/-! # Theorems -/

/-! ## Helper lemmas on dicts -/

theorem pyLookup_eq_none_iff {α : Type _} (d : List (String × α)) (k : String) :
    pyLookup d k = none ↔ k ∉ d.map Prod.fst := by
  induction d with
  | nil => simp [pyLookup]
  | cons hd tl ih =>
    obtain ⟨k0, v0⟩ := hd
    by_cases h : k0 = k
    · subst h
      simp [pyLookup]
    · simp [pyLookup, h, ih, Ne.symm h]

theorem dictHas_iff {α : Type _} (d : List (String × α)) (k : String) :
    dictHas d k = true ↔ k ∈ d.map Prod.fst := by
  rw [dictHas, Option.isSome_iff_ne_none]
  simp [pyLookup_eq_none_iff, not_not]

theorem dictSet_of_absent {α : Type _} (d : List (String × α)) (k : String) (v : α)
    (h : pyLookup d k = none) : dictSet d k v = d ++ [(k, v)] := by
  induction d with
  | nil => simp [dictSet]
  | cons hd tl ih =>
    obtain ⟨k0, v0⟩ := hd
    by_cases h0 : k0 = k
    · subst h0
      simp [pyLookup] at h
    · simp [pyLookup, h0] at h
      simp [dictSet, h0, ih h]

/-! ## C1: escalation precedence -/

theorem check_signals_spec (s : String) :
    check_for_escalation_signals s =
      (human_requests.any (fun r => strContains (lowerStr s) r) ||
        decide (2 ≤ FRUSTRATION_KEYWORDS.countP (fun k => strContains (lowerStr s) k))) := by
  unfold check_for_escalation_signals
  by_cases h1 : human_requests.any (fun r => strContains (lowerStr s) r) = true
  · simp [h1]
  · simp only [Bool.not_eq_true] at h1
    by_cases h2 : 2 ≤ FRUSTRATION_KEYWORDS.countP (fun k => strContains (lowerStr s) k)
    · simp [h1, h2]
    · simp [h1, h2]

/-- C1: `should_escalate` follows first-match precedence. A follow-up
containing an explicit human-teacher request phrase or at least two
distinct frustration phrases yields the high/immediate/connect_to_teacher
escalation for EVERY collaborator argument (including an always-raising
one, so the collaborator is never consulted) and every exchange count;
otherwise an exchange count of at least 5 yields the medium/end_of_day
escalation, again for every collaborator; otherwise, with no collaborator,
the low-priority non-escalation is returned. -/
theorem should_escalate_precedence
    (sq sf subj gl qt : String) (prev : List String) (ec : Nat)
    (mf : Option (String → Except PyErr Val)) :
    ((human_requests.any (fun r => strContains (lowerStr sf) r) = true ∨
        2 ≤ FRUSTRATION_KEYWORDS.countP (fun k => strContains (lowerStr sf) k)) →
      (should_escalate sq sf subj gl qt prev ec mf = .ok (escalationSignalDict sq) ∧
       pyLookup (escalationSignalDict sq) "escalate" = some (.bool true) ∧
       pyLookup (escalationSignalDict sq) "priority" = some (.str "high") ∧
       pyLookup (escalationSignalDict sq) "suggested_time" = some (.str "immediate") ∧
       pyLookup (escalationSignalDict sq) "suggested_action" = some (.str "connect_to_teacher"))) ∧
    (check_for_escalation_signals sf = false → 5 ≤ ec →
      (should_escalate sq sf subj gl qt prev ec mf = .ok (escalationExchangeDict sq) ∧
       pyLookup (escalationExchangeDict sq) "escalate" = some (.bool true) ∧
       pyLookup (escalationExchangeDict sq) "priority" = some (.str "medium") ∧
       pyLookup (escalationExchangeDict sq) "suggested_time" = some (.str "end_of_day"))) ∧
    (check_for_escalation_signals sf = false → ec < 5 →
      (should_escalate sq sf subj gl qt prev ec none = .ok escalationDefaultDict ∧
       pyLookup escalationDefaultDict "escalate" = some (.bool false) ∧
       pyLookup escalationDefaultDict "priority" = some (.str "low"))) := by
  refine ⟨?_, ?_, ?_⟩
  · intro h
    have hsig : check_for_escalation_signals sf = true := by
      rw [check_signals_spec]
      rcases h with h | h
      · simp [h]
      · simp [h]
    refine ⟨?_, rfl, rfl, rfl, rfl⟩
    unfold should_escalate
    simp [hsig]
  · intro hq h5
    refine ⟨?_, rfl, rfl, rfl⟩
    unfold should_escalate
    simp [hq, MAX_EXCHANGES_BEFORE_ESCALATION, h5]
  · intro hq h5
    refine ⟨?_, rfl, rfl⟩
    unfold should_escalate
    simp [hq, MAX_EXCHANGES_BEFORE_ESCALATION, Nat.not_le.mpr h5]

theorem should_escalate_precedence_witness :
    (human_requests.any
        (fun r => strContains (lowerStr "i\x27m lost and confused") r) = true ∨
      2 ≤ FRUSTRATION_KEYWORDS.countP
        (fun k => strContains (lowerStr "i\x27m lost and confused") k)) ∧
    should_escalate "q" "i\x27m lost and confused" "s" "g" "t" [] 0 none =
      .ok (escalationSignalDict "q") ∧
    should_escalate "q" "fine" "s" "g" "t" [] 7 none =
      .ok (escalationExchangeDict "q") ∧
    should_escalate "q" "fine" "s" "g" "t" [] 0 none = .ok escalationDefaultDict :=
  ⟨Or.inr (by decide),
   ((should_escalate_precedence "q" "i\x27m lost and confused" "s" "g" "t" [] 0
       none).1 (Or.inr (by decide))).1,
   ((should_escalate_precedence "q" "fine" "s" "g" "t" [] 7 none).2.1
       (by decide) (by decide)).1,
   ((should_escalate_precedence "q" "fine" "s" "g" "t" [] 0 none).2.2
       (by decide) (by decide)).1⟩

/-! ## C7: keyword-heuristic tie behavior -/

/-- The decision structure of `quick_subject_classifier` on the three
scores: the maximum of the scores, and the first subject attaining it. -/
def quickPick (r s m : Nat) : String :=
  let M := Nat.max (Nat.max (Nat.max 0 r) s) m
  if 0 < M then
    if r == M then "reading"
    else if s == M then "science"
    else if m == M then "math"
    else "other"
  else "other"

theorem quick_subject_classifier_eq_quickPick (q : String) :
    quick_subject_classifier q =
      quickPick (subjectScore (lowerStr q) READING_PATTERNS)
        (subjectScore (lowerStr q) SCIENCE_PATTERNS)
        (subjectScore (lowerStr q) MATH_PATTERNS) := by
  unfold quick_subject_classifier quickPick
  simp only [SUBJECT_PATTERNS, List.map_cons, List.map_nil, List.foldl_cons,
    List.foldl_nil, List.find?]
  set r := subjectScore (lowerStr q) READING_PATTERNS with hr
  set s := subjectScore (lowerStr q) SCIENCE_PATTERNS with hs
  set m := subjectScore (lowerStr q) MATH_PATTERNS with hm
  set M := Nat.max (Nat.max (Nat.max 0 r) s) m with hM
  by_cases h0 : 0 < M
  · simp only [gt_iff_lt, h0, if_true]
    by_cases h1 : r == M
    · simp [h1]
    · simp only [Bool.not_eq_true] at h1
      simp only [h1]
      by_cases h2 : s == M
      · simp [h2]
      · simp only [Bool.not_eq_true] at h2
        simp only [h2]
        by_cases h3 : m == M
        · simp [h3]
        · simp only [Bool.not_eq_true] at h3
          simp [h3]
  · simp [h0]

/-- C7 counterexample: on `"read science"` the reading and science scores
tie at the positive maximum, yet the classifier returns `"reading"`, not
`"other"`. -/
theorem quick_subject_classifier_tie_counterexample :
    subjectScore (lowerStr "read science") READING_PATTERNS = 1 ∧
    subjectScore (lowerStr "read science") SCIENCE_PATTERNS = 1 ∧
    subjectScore (lowerStr "read science") MATH_PATTERNS = 0 ∧
    quick_subject_classifier "read science" = "reading" ∧
    quick_subject_classifier "read science" ≠ "other" :=
  ⟨by decide, by decide, by decide, by decide, by decide⟩

/-- C7 (amended): a strictly highest score wins; all-zero scores yield
`"other"`; at a tied positive maximum the FIRST subject in the fixed
`reading, science, math` order attaining the maximum is returned (never
`"other"`). -/
theorem quick_subject_classifier_resolution (q : String) :
    (subjectScore (lowerStr q) READING_PATTERNS = 0 →
      subjectScore (lowerStr q) SCIENCE_PATTERNS = 0 →
      subjectScore (lowerStr q) MATH_PATTERNS = 0 →
      quick_subject_classifier q = "other") ∧
    (subjectScore (lowerStr q) SCIENCE_PATTERNS < subjectScore (lowerStr q) READING_PATTERNS →
      subjectScore (lowerStr q) MATH_PATTERNS < subjectScore (lowerStr q) READING_PATTERNS →
      quick_subject_classifier q = "reading") ∧
    (subjectScore (lowerStr q) READING_PATTERNS < subjectScore (lowerStr q) SCIENCE_PATTERNS →
      subjectScore (lowerStr q) MATH_PATTERNS < subjectScore (lowerStr q) SCIENCE_PATTERNS →
      quick_subject_classifier q = "science") ∧
    (subjectScore (lowerStr q) READING_PATTERNS < subjectScore (lowerStr q) MATH_PATTERNS →
      subjectScore (lowerStr q) SCIENCE_PATTERNS < subjectScore (lowerStr q) MATH_PATTERNS →
      quick_subject_classifier q = "math") ∧
    (∀ M, M = Nat.max (Nat.max (Nat.max 0 (subjectScore (lowerStr q) READING_PATTERNS))
        (subjectScore (lowerStr q) SCIENCE_PATTERNS))
        (subjectScore (lowerStr q) MATH_PATTERNS) →
      0 < M →
      quick_subject_classifier q =
        (if subjectScore (lowerStr q) READING_PATTERNS = M then "reading"
         else if subjectScore (lowerStr q) SCIENCE_PATTERNS = M then "science"
         else "math")) := by
  rw [quick_subject_classifier_eq_quickPick]
  set r := subjectScore (lowerStr q) READING_PATTERNS with hr
  set s := subjectScore (lowerStr q) SCIENCE_PATTERNS with hs
  set m := subjectScore (lowerStr q) MATH_PATTERNS with hm
  clear_value r s m
  clear hr hs hm
  unfold quickPick
  refine ⟨?_, ?_, ?_, ?_, ?_⟩
  · rintro rfl rfl rfl
    simp
  · intro h1 h2
    have hM : Nat.max (Nat.max (Nat.max 0 r) s) m = r := by
      simp only [Nat.max_def]
      split_ifs <;> omega
    have h0 : 0 < r := by omega
    rw [hM]
    simp [h0]
  · intro h1 h2
    have hM : Nat.max (Nat.max (Nat.max 0 r) s) m = s := by
      simp only [Nat.max_def]
      split_ifs <;> omega
    have h0 : 0 < s := by omega
    have hbr : (r == s) = false := by simp; omega
    rw [hM]
    simp [h0, hbr]
  · intro h1 h2
    have hM : Nat.max (Nat.max (Nat.max 0 r) s) m = m := by
      simp only [Nat.max_def]
      split_ifs <;> omega
    have h0 : 0 < m := by omega
    have h3 : (r == m) = false := by simp; omega
    have h4 : (s == m) = false := by simp; omega
    rw [hM]
    simp [h0, h3, h4]
  · intro M hM h0
    rw [← hM]
    simp only [h0, if_true]
    have hMem : M = r ∨ M = s ∨ M = m := by
      simp only [Nat.max_def] at hM
      split_ifs at hM <;> omega
    by_cases hr' : r = M
    · simp [hr']
    · have hbr : ¬ (r == M) = true := by simp [hr']
      simp only [hbr, if_false, if_neg hr']
      by_cases hs' : s = M
      · simp [hs']
      · have hbs : ¬ (s == M) = true := by simp [hs']
        simp only [hbs, if_false, if_neg hs']
        have hm' : m = M := by
          rcases hMem with h | h | h
          · exact absurd h.symm hr'
          · exact absurd h.symm hs'
          · exact h.symm
        simp [hm']

theorem quick_subject_classifier_resolution_witness :
    quick_subject_classifier "solve the equation" = "math" ∧
    quick_subject_classifier "hello there" = "other" ∧
    quick_subject_classifier "read science" = "reading" :=
  ⟨((quick_subject_classifier_resolution "solve the equation").2.2.2.1
      (by decide) (by decide)),
   ((quick_subject_classifier_resolution "hello there").1
      (by decide) (by decide) (by decide)),
   (((quick_subject_classifier_resolution "read science").2.2.2.2 1
      (by decide) (by decide)).trans (by decide))⟩

/-! ## C8: schema normalization -/

theorem dictHas_false_lookup {α : Type _} {d : List (String × α)} {k : String}
    (h : dictHas d k = false) : pyLookup d k = none := by
  unfold dictHas at h
  cases hl : pyLookup d k with
  | none => rfl
  | some v => rw [hl] at h; simp at h

theorem normalizeSchema_preserves (d : List (String × Val)) (keys : List String)
    (defaults : String → Val) :
    ∀ k v, pyLookup d k = some v →
      pyLookup (normalizeSchema d keys defaults) k = some v := by
  induction keys generalizing d with
  | nil => intro k v h; simpa [normalizeSchema] using h
  | cons k0 rest ih =>
    intro k v h
    unfold normalizeSchema
    by_cases h0 : dictHas d k0
    · simp only [h0, if_true]
      exact ih d k v h
    · simp only [Bool.not_eq_true] at h0
      simp only [h0, Bool.false_eq_true, if_false]
      apply ih
      by_cases hk : k0 = k
      · subst hk
        rw [dictHas_false_lookup h0] at h
        exact absurd h (by simp)
      · rw [pyLookup_dictSet_ne _ _ _ _ hk]
        exact h

theorem normalizeSchema_has (d : List (String × Val)) (keys : List String)
    (defaults : String → Val) :
    ∀ k, k ∈ keys → dictHas (normalizeSchema d keys defaults) k = true := by
  induction keys generalizing d with
  | nil => intro k h; simp at h
  | cons k0 rest ih =>
    intro k hk
    unfold normalizeSchema
    rcases List.mem_cons.mp hk with h | h
    · subst h
      by_cases h0 : dictHas d k
      · simp only [h0, if_true]
        unfold dictHas at h0 ⊢
        cases hl : pyLookup d k with
        | none => rw [hl] at h0; simp at h0
        | some v =>
          rw [normalizeSchema_preserves d rest defaults k v hl]
          rfl
      · simp only [Bool.not_eq_true] at h0
        simp only [h0, Bool.false_eq_true, if_false]
        unfold dictHas
        rw [normalizeSchema_preserves _ rest defaults k (defaults k)
          (pyLookup_dictSet_self d k (defaults k))]
        rfl
    · by_cases h0 : dictHas d k0
      · simp only [h0, if_true]
        exact ih d k h
      · simp only [Bool.not_eq_true] at h0
        simp only [h0, Bool.false_eq_true, if_false]
        exact ih _ k h

theorem normalizeSchema_noop (d : List (String × Val)) (keys : List String)
    (defaults : String → Val) (hall : ∀ k ∈ keys, dictHas d k = true) :
    normalizeSchema d keys defaults = d := by
  induction keys with
  | nil => rfl
  | cons k0 rest ih =>
    unfold normalizeSchema
    have h0 : dictHas d k0 = true := hall k0 (by simp)
    simp only [h0, if_true]
    exact ih (fun k hk => hall k (List.mem_cons_of_mem _ hk))

/-- C8: normalization is idempotent; it never changes or removes a key
already present (presence, not truthiness, is the test), and it inserts
the supplied default exactly for the required keys that are absent. -/
theorem normalizeSchema_idempotent (d : List (String × Val)) (keys : List String)
    (defaults : String → Val) :
    normalizeSchema (normalizeSchema d keys defaults) keys defaults =
      normalizeSchema d keys defaults ∧
    (∀ k v, pyLookup d k = some v →
      pyLookup (normalizeSchema d keys defaults) k = some v) ∧
    (∀ k, k ∈ keys → pyLookup d k = none →
      pyLookup (normalizeSchema d keys defaults) k = some (defaults k)) := by
  refine ⟨?_, normalizeSchema_preserves d keys defaults, ?_⟩
  · exact normalizeSchema_noop _ _ _ (fun k hk => normalizeSchema_has d keys defaults k hk)
  · intro k hk hnone
    induction keys generalizing d with
    | nil => simp at hk
    | cons k0 rest ih =>
      unfold normalizeSchema
      by_cases heq : k0 = k
      · subst heq
        have h0 : dictHas d k0 = false := by unfold dictHas; rw [hnone]; rfl
        simp only [h0, Bool.false_eq_true, if_false]
        exact normalizeSchema_preserves _ rest defaults k0 (defaults k0)
          (pyLookup_dictSet_self d k0 (defaults k0))
      · have hk' : k ∈ rest := by
          rcases List.mem_cons.mp hk with h | h
          · exact absurd h.symm heq
          · exact h
        by_cases h0 : dictHas d k0
        · simp only [h0, if_true]
          exact ih d hk' hnone
        · simp only [Bool.not_eq_true] at h0
          simp only [h0, Bool.false_eq_true, if_false]
          apply ih _ hk'
          rw [pyLookup_dictSet_ne _ _ _ _ heq]
          exact hnone

theorem normalizeSchema_idempotent_witness :
    pyLookup (normalizeSchema [("subject", Val.str "")]
      ["subject", "query_type", "complexity"] (fun _ => Val.str "unknown"))
      "subject" = some (Val.str "") ∧
    pyLookup (normalizeSchema [("subject", Val.str "")]
      ["subject", "query_type", "complexity"] (fun _ => Val.str "unknown"))
      "query_type" = some (Val.str "unknown") ∧
    normalizeSchema (normalizeSchema [("subject", Val.str "")]
        ["subject", "query_type", "complexity"] (fun _ => Val.str "unknown"))
      ["subject", "query_type", "complexity"] (fun _ => Val.str "unknown") =
      normalizeSchema [("subject", Val.str "")]
        ["subject", "query_type", "complexity"] (fun _ => Val.str "unknown") :=
  ⟨(normalizeSchema_idempotent _ _ _).2.1 "subject" (Val.str "") rfl,
   (normalizeSchema_idempotent _ _ _).2.2 "query_type" (by simp) rfl,
   (normalizeSchema_idempotent _ _ _).1⟩

/-! ## C9: combine_templates mutates the metadata list of an input template -/

/-- C9 (code bug demonstrated): with two templates whose metadata both map
`"tags"` to a (heap-allocated) list, the combine loop stores an alias to
the list of the first template and then extends it in place: after the call the
tags list of the first template has gained the items of the second template —
the inputs are NOT left unchanged. -/
theorem combine_templates_mutates_input_list :
    heapGet (combineMetadataH [[HVal.imm (Val.str "a")], [HVal.imm (Val.str "b")]]
      [[("tags", HVal.ref 0)], [("tags", HVal.ref 1)]]).heap 0 =
      [HVal.imm (Val.str "a"), HVal.imm (Val.str "b")] ∧
    heapGet [[HVal.imm (Val.str "a")], [HVal.imm (Val.str "b")]] 0 =
      [HVal.imm (Val.str "a")] ∧
    heapGet (combineMetadataH [[HVal.imm (Val.str "a")], [HVal.imm (Val.str "b")]]
      [[("tags", HVal.ref 0)], [("tags", HVal.ref 1)]]).heap 0 ≠
      heapGet [[HVal.imm (Val.str "a")], [HVal.imm (Val.str "b")]] 0 :=
  ⟨rfl, rfl, fun h => absurd (congrArg List.length h) (by decide)⟩

/-! ## C4: orchestrator response shape -/

theorem final_attach_lookups (rd : List (String × Val)) (i e : Val) :
    pyLookup (dictSet (dictSet rd "intent" i) "escalation" e) "escalation" = some e ∧
    pyLookup (dictSet (dictSet rd "intent" i) "escalation" e) "intent" = some i ∧
    pyLookup (dictSet (dictSet rd "intent" i) "escalation" e) "response_type" =
      pyLookup rd "response_type" := by
  refine ⟨pyLookup_dictSet_self _ _ _, ?_, ?_⟩
  · rw [pyLookup_dictSet_ne _ _ _ _ (by decide), pyLookup_dictSet_self]
  · rw [pyLookup_dictSet_ne _ _ _ _ (by decide), pyLookup_dictSet_ne _ _ _ _ (by decide)]

theorem process_reading_question_response_type (input gl : String) :
    ∃ t, pyLookup (Main.process_reading_question input gl) "response_type" =
        some (.str t) ∧
      (t = "reading_passage_analysis" ∨ t = "reading_explanation" ∨
       t = "reading_question_answer") := by
  unfold Main.process_reading_question
  by_cases hp : 30 < Main.wordCount input
  · simp only [hp, if_true]
    exact ⟨"reading_passage_analysis", rfl, Or.inl rfl⟩
  · simp only [hp, if_false]
    by_cases ha : (strContains (lowerStr input) "author" ||
        strContains (lowerStr input) "mean") = true
    · simp only [ha, if_true]
      exact ⟨"reading_explanation", rfl, Or.inr (Or.inl rfl)⟩
    · simp only [Bool.not_eq_true] at ha
      simp only [ha, Bool.false_eq_true, if_false]
      exact ⟨"reading_question_answer", rfl, Or.inr (Or.inr rfl)⟩

/-- C4: for every student input and grade level, the response record of the orchestrator carries a `response_type` drawn from the fixed five-value
set, and always carries an `intent` field and an `escalation` field. -/
theorem process_student_input_shape (input gl : String) :
    (∃ t, pyLookup (Main.process_student_input input gl) "response_type" =
        some (.str t) ∧
      (t = "reading_passage_analysis" ∨ t = "science_explanation" ∨
       t = "reading_explanation" ∨ t = "reading_question_answer" ∨
       t = "unsupported_subject")) ∧
    (pyLookup (Main.process_student_input input gl) "intent").isSome = true ∧
    (pyLookup (Main.process_student_input input gl) "escalation").isSome = true := by
  unfold Main.process_student_input
  set intent := Main.classify_educational_intent input with hintent
  set subject := Main.pyGet intent "subject" (Val.str "general") with hsubject
  set rd := (if Main.valEqStr subject "reading" = true then
      Main.process_reading_question input gl
    else if ["science", "physics", "chemistry", "biology", "earth_science",
        "astronomy"].any (fun s => Main.valEqStr subject s) = true then
      Main.process_science_question input gl
    else
      [("intent", .dict intent),
       ("message", .str "I\x27m not sure how to help with that subject yet. Can you ask me a question about reading or science?"),
       ("response_type", .str "unsupported_subject")]) with hrd
  obtain ⟨he, hi, ht⟩ := final_attach_lookups rd (.dict intent) (.dict Main.should_escalate)
  refine ⟨?_, ?_, ?_⟩
  · rw [ht]
    rw [hrd]
    by_cases h1 : Main.valEqStr subject "reading" = true
    · simp only [h1, if_true]
      obtain ⟨t, h, hmem⟩ := process_reading_question_response_type input gl
      refine ⟨t, h, ?_⟩
      rcases hmem with h | h | h
      · exact Or.inl h
      · exact Or.inr (Or.inr (Or.inl h))
      · exact Or.inr (Or.inr (Or.inr (Or.inl h)))
    · simp only [h1, if_false]
      by_cases h2 : ["science", "physics", "chemistry", "biology", "earth_science",
          "astronomy"].any (fun s => Main.valEqStr subject s) = true
      · simp only [h2, if_true]
        exact ⟨"science_explanation", rfl, Or.inr (Or.inl rfl)⟩
      · simp only [h2, if_false]
        exact ⟨"unsupported_subject", rfl, Or.inr (Or.inr (Or.inr (Or.inr rfl)))⟩
  · rw [hi]
    rfl
  · rw [he]
    rfl

/-! ## C5: pipeline totality and the no-brace case -/

theorem fenceSearch_none_of_no_triple (cs : List Char)
    (h : hasSegment ['\x60', '\x60', '\x60'] cs = false) : fenceSearch cs = none := by
  induction cs with
  | nil => rfl
  | cons c rest ih =>
    unfold hasSegment at h
    rw [Bool.or_eq_false_iff] at h
    unfold fenceSearch
    unfold startsTriple
    simp only [h.1, Bool.false_eq_true, if_false]
    exact ih h.2

theorem braceSearch_none_of_no_lbrace (cs : List Char)
    (h : cs.contains '\x7b' = false) : braceSearch cs = none := by
  induction cs with
  | nil => rfl
  | cons c rest ih =>
    simp only [List.contains_cons, Bool.or_eq_false_iff] at h
    have hc : ¬ c = '\x7b' := by
      intro hh
      subst hh
      simpa using h.1
    unfold braceSearch
    simp only [hc, if_false]
    exact ih h.2

/-- C5 counterexample: `"```42```"` holds no brace character at all, yet
the pipeline returns the parsed value `42` from the fenced block — not
absence. -/
theorem parse_json_response_no_brace_counterexample :
    ("```42```".toList.contains '\x7b') = false ∧
    parse_json_response "```42```" = some (Val.int 42) :=
  ⟨by decide, rfl⟩

/-- C5 (amended): the pipeline is total — it returns a parsed value or
absence, never an exception — and on any text with no brace character and
no triple-backtick sequence it returns absence. -/
theorem parse_json_response_amended (text : String)
    (hb : text.toList.contains '\x7b' = false)
    (hf : hasSegment ['\x60', '\x60', '\x60'] text.toList = false) :
    parse_json_response text = none := by
  unfold parse_json_response extract_json_from_text
  rw [fenceSearch_none_of_no_triple _ hf, braceSearch_none_of_no_lbrace _ hb]

theorem parse_json_response_amended_witness :
    ("hello world".toList.contains '\x7b') = false ∧
    hasSegment ['\x60', '\x60', '\x60'] "hello world".toList = false ∧
    parse_json_response "hello world" = none :=
  ⟨by decide, by decide,
   parse_json_response_amended "hello world" (by decide) (by decide)⟩

/-! ## C10: lazy brace extraction truncates nested objects -/

theorem untilRBrace_split (mid post : List Char)
    (hm : mid.contains '\x7d' = false) :
    untilRBrace (mid ++ '\x7d' :: post) = some mid := by
  induction mid with
  | nil => simp [untilRBrace]
  | cons c rest ih =>
    simp only [List.contains_cons, Bool.or_eq_false_iff] at hm
    have hc : ¬ c = '\x7d' := by
      intro hh
      subst hh
      simpa using hm.1
    simp only [List.cons_append]
    unfold untilRBrace
    simp [hc, ih hm.2]

theorem braceSearch_split (pre mid post : List Char)
    (hp : pre.contains '\x7b' = false) (hm : mid.contains '\x7d' = false) :
    braceSearch (pre ++ '\x7b' :: (mid ++ '\x7d' :: post)) =
      some ('\x7b' :: (mid ++ ['\x7d'])) := by
  induction pre with
  | nil =>
    simp only [List.nil_append]
    unfold braceSearch
    simp [untilRBrace_split mid post hm]
  | cons c rest ih =>
    simp only [List.contains_cons, Bool.or_eq_false_iff] at hp
    have hc : ¬ c = '\x7b' := by
      intro hh
      subst hh
      simpa using hp.1
    simp only [List.cons_append]
    unfold braceSearch
    simp only [hc, if_false]
    exact ih hp.2

/-- C10: on fence-less text the extraction candidate runs from the first
`\x7b` to the earliest following `\x7d` (lazy match), stated via the
decomposition `pre ++ \x7b :: mid ++ \x7d :: post` with no `\x7b` in `pre`
and no `\x7d` in `mid`; consequently the nested-object text
`\x7b"a": \x7b"b": 1\x7d\x7d` is truncated before its outer closing brace
and the pipeline returns absence even though the full text is valid
JSON. -/
theorem extract_truncates_nested_object :
    (∀ pre mid post : List Char,
      fenceSearch (pre ++ '\x7b' :: (mid ++ '\x7d' :: post)) = none →
      pre.contains '\x7b' = false → mid.contains '\x7d' = false →
      extract_json_from_text (String.mk (pre ++ '\x7b' :: (mid ++ '\x7d' :: post))) =
        some (String.mk (stripChars ('\x7b' :: (mid ++ ['\x7d']))))) ∧
    extract_json_from_text "\x7b\"a\": \x7b\"b\": 1\x7d\x7d" =
      some "\x7b\"a\": \x7b\"b\": 1\x7d" ∧
    parse_json_response "\x7b\"a\": \x7b\"b\": 1\x7d\x7d" = none ∧
    json_loads "\x7b\"a\": \x7b\"b\": 1\x7d\x7d" =
      .ok (.dict [("a", .dict [("b", .int 1)])]) := by
  refine ⟨?_, rfl, rfl, rfl⟩
  intro pre mid post hf hp hm
  unfold extract_json_from_text
  rw [show (String.mk (pre ++ '\x7b' :: (mid ++ '\x7d' :: post))).toList =
    pre ++ '\x7b' :: (mid ++ '\x7d' :: post) from rfl]
  rw [hf, braceSearch_split pre mid post hp hm]

theorem extract_truncates_nested_object_witness :
    fenceSearch ("x ".toList ++ '\x7b' :: ("1".toList ++ '\x7d' :: " y".toList)) = none ∧
    ("x ".toList.contains '\x7b') = false ∧
    ("1".toList.contains '\x7d') = false ∧
    extract_json_from_text
        (String.mk ("x ".toList ++ '\x7b' :: ("1".toList ++ '\x7d' :: " y".toList))) =
      some (String.mk (stripChars ('\x7b' :: ("1".toList ++ ['\x7d'])))) :=
  ⟨by decide, by decide, by decide,
   extract_truncates_nested_object.1 "x ".toList "1".toList " y".toList
     (by decide) (by decide) (by decide)⟩

/-! ## C6: combine_templates metadata merge -/

/-- The value stored for a key when the accumulated value collides with a
second value, per `combine_templates`' loop. -/
def collide : Option Val → Val → Val
  | none, v2 => v2
  | some (.list l1), .list l2 => .list (l1 ++ l2)
  | some (.list l1), v2 => .list (l1 ++ [v2])
  | some v1, v2 => .list [v1, v2]

theorem combineMetaStep_lookup_ne (acc : List (String × Val)) (kv : String × Val)
    (k : String) (h : kv.1 ≠ k) :
    pyLookup (combineMetaStep acc kv) k = pyLookup acc k := by
  obtain ⟨k0, v0⟩ := kv
  unfold combineMetaStep
  simp only at h ⊢
  cases hl : pyLookup acc k0 with
  | none => exact pyLookup_dictSet_ne _ _ _ _ h
  | some v =>
    cases v <;> first
      | exact pyLookup_dictSet_ne _ _ _ _ h
      | (cases v0 <;> exact pyLookup_dictSet_ne _ _ _ _ h)

theorem combineMetaStep_lookup_self (acc : List (String × Val)) (kv : String × Val) :
    pyLookup (combineMetaStep acc kv) kv.1 =
      some (collide (pyLookup acc kv.1) kv.2) := by
  obtain ⟨k0, v0⟩ := kv
  unfold combineMetaStep
  simp only
  cases hl : pyLookup acc k0 with
  | none => simp [collide, pyLookup_dictSet_self]
  | some v =>
    cases v <;> simp only [collide] <;>
      first
        | simp [pyLookup_dictSet_self]
        | (cases v0 <;> simp [collide, pyLookup_dictSet_self])

theorem combineMeta_fold_fresh (m : List (String × Val)) :
    ∀ acc, (m.map Prod.fst).Nodup →
    (∀ k ∈ m.map Prod.fst, pyLookup acc k = none) →
    m.foldl combineMetaStep acc = acc ++ m := by
  induction m with
  | nil => intro acc _ _; simp
  | cons kv rest ih =>
    intro acc hd hfresh
    obtain ⟨k0, v0⟩ := kv
    simp only [List.foldl_cons]
    have hk0 : pyLookup acc k0 = none := hfresh k0 (by simp)
    have hstep : combineMetaStep acc (k0, v0) = acc ++ [(k0, v0)] := by
      unfold combineMetaStep
      simp only [hk0]
      exact dictSet_of_absent _ _ _ hk0
    rw [hstep]
    simp only [List.map_cons, List.nodup_cons] at hd
    rw [ih (acc ++ [(k0, v0)]) hd.2 ?_]
    · simp
    · intro k hk
      have hne : k0 ≠ k := fun h => hd.1 (h ▸ hk)
      rw [← dictSet_of_absent _ _ _ hk0, pyLookup_dictSet_ne _ _ _ _ hne]
      exact hfresh k (by simp [hk])

theorem combineMeta_fold_lookup (m2 : List (String × Val)) :
    ∀ acc, (m2.map Prod.fst).Nodup → ∀ k,
    (pyLookup m2 k = none →
      pyLookup (m2.foldl combineMetaStep acc) k = pyLookup acc k) ∧
    (∀ v2, pyLookup m2 k = some v2 →
      pyLookup (m2.foldl combineMetaStep acc) k =
        some (collide (pyLookup acc k) v2)) := by
  induction m2 with
  | nil =>
    intro acc _ k
    exact ⟨fun _ => rfl, fun v2 h => by simp [pyLookup] at h⟩
  | cons kv rest ih =>
    intro acc hd k
    obtain ⟨k0, v0⟩ := kv
    simp only [List.map_cons, List.nodup_cons] at hd
    simp only [List.foldl_cons]
    by_cases hk : k0 = k
    · subst hk
      constructor
      · intro h
        simp [pyLookup] at h
      · intro v2 h
        have hv2 : v2 = v0 := by
          simp [pyLookup] at h
          exact h.symm
        rw [hv2]
        have hrest : pyLookup rest k0 = none := by
          rw [pyLookup_eq_none_iff]
          exact hd.1
        rw [(ih (combineMetaStep acc (k0, v0)) hd.2 k0).1 hrest]
        exact combineMetaStep_lookup_self acc (k0, v0)
    · have hstep := combineMetaStep_lookup_ne acc (k0, v0) k hk
      constructor
      · intro h
        simp only [pyLookup, if_neg hk] at h
        rw [(ih (combineMetaStep acc (k0, v0)) hd.2 k).1 h]
        exact hstep
      · intro v2 h
        simp only [pyLookup, if_neg hk] at h
        rw [(ih (combineMetaStep acc (k0, v0)) hd.2 k).2 v2 h]
        rw [hstep]

/-- C6 counterexample: two templates whose metadata give the same key the
scalar values `"1"` and `"2"`. The combined metadata holds the two-element
list `["1", "2"]`, while the deep merge (`merge_json_objects`) lets the
second value win — the combined metadata is NOT the deep merge. -/
theorem combine_templates_scalar_collision_counterexample :
    (combine_templates [{ template_text := "A", metadata := [("a", Val.str "1")] },
      { template_text := "B", metadata := [("a", Val.str "2")] }]).metadata =
      [("a", Val.list [Val.str "1", Val.str "2"])] ∧
    merge_json_objects [("a", Val.str "1")] [("a", Val.str "2")] =
      [("a", Val.str "2")] ∧
    (combine_templates [{ template_text := "A", metadata := [("a", Val.str "1")] },
      { template_text := "B", metadata := [("a", Val.str "2")] }]).metadata ≠
      merge_json_objects [("a", Val.str "1")] [("a", Val.str "2")] := by
  have hm : merge_json_objects [("a", Val.str "1")] [("a", Val.str "2")] =
      [("a", Val.str "2")] := by
    simp [merge_json_objects, pyLookup, dictSet]
  refine ⟨rfl, hm, ?_⟩
  intro h
  rw [hm, show (combine_templates [{ template_text := "A", metadata := [("a", Val.str "1")] },
      { template_text := "B", metadata := [("a", Val.str "2")] }]).metadata =
      [("a", Val.list [Val.str "1", Val.str "2"])] from rfl] at h
  injection h with h1 h2
  injection h1 with ha hv
  exact Val.noConfusion hv

/-- C6 (amended): combining two templates merges metadata by the rule of the loop itself, pointwise per key: a key present in only one template keeps that
value; two list values concatenate; a list value followed by a non-list
value appends it; any other collision collects BOTH values into a
two-element list (nested maps are not merged recursively and the second
scalar does not win). -/
theorem combine_templates_metadata_characterization (t1 t2 : PromptTemplate)
    (sep : String) (k : String)
    (hd1 : (t1.metadata.map Prod.fst).Nodup)
    (hd2 : (t2.metadata.map Prod.fst).Nodup) :
    (pyLookup t2.metadata k = none →
      pyLookup (combine_templates [t1, t2] sep).metadata k = pyLookup t1.metadata k) ∧
    (pyLookup t1.metadata k = none →
      pyLookup (combine_templates [t1, t2] sep).metadata k = pyLookup t2.metadata k) ∧
    (∀ l1 l2, pyLookup t1.metadata k = some (.list l1) →
      pyLookup t2.metadata k = some (.list l2) →
      pyLookup (combine_templates [t1, t2] sep).metadata k = some (.list (l1 ++ l2))) ∧
    (∀ l1 v2, pyLookup t1.metadata k = some (.list l1) →
      pyLookup t2.metadata k = some v2 → (∀ l, v2 ≠ .list l) →
      pyLookup (combine_templates [t1, t2] sep).metadata k =
        some (.list (l1 ++ [v2]))) ∧
    (∀ v1 v2, pyLookup t1.metadata k = some v1 → (∀ l, v1 ≠ .list l) →
      pyLookup t2.metadata k = some v2 →
      pyLookup (combine_templates [t1, t2] sep).metadata k =
        some (.list [v1, v2])) := by
  have hc : (combine_templates [t1, t2] sep).metadata =
      t2.metadata.foldl combineMetaStep t1.metadata := by
    show combineMetadata [t1.metadata, t2.metadata] =
      t2.metadata.foldl combineMetaStep t1.metadata
    unfold combineMetadata
    simp only [List.foldl_cons, List.foldl_nil]
    rw [combineMeta_fold_fresh t1.metadata [] hd1 (fun k _ => rfl)]
    simp
  rw [hc]
  have hpoint := combineMeta_fold_lookup t2.metadata t1.metadata hd2 k
  refine ⟨?_, ?_, ?_, ?_, ?_⟩
  · intro h2
    exact hpoint.1 h2
  · intro h1
    cases h2 : pyLookup t2.metadata k with
    | none => rw [hpoint.1 h2, h1]
    | some v2 => rw [hpoint.2 v2 h2, h1, collide]
  · intro l1 l2 h1 h2
    rw [hpoint.2 (.list l2) h2, h1, collide]
  · intro l1 v2 h1 h2 hnl
    rw [hpoint.2 v2 h2, h1]
    cases v2 with
    | list l => exact absurd rfl (hnl l)
    | str s => rfl
    | int n => rfl
    | bool b => rfl
    | null => rfl
    | dict d => rfl
  · intro v1 v2 h1 hnl h2
    rw [hpoint.2 v2 h2, h1]
    cases v1 with
    | list l => exact absurd rfl (hnl l)
    | str s => cases v2 <;> rfl
    | int n => cases v2 <;> rfl
    | bool b => cases v2 <;> rfl
    | null => cases v2 <;> rfl
    | dict d => cases v2 <;> rfl

theorem combine_templates_metadata_characterization_witness :
    pyLookup (combine_templates
      [{ template_text := "A", metadata := [("x", Val.list [Val.int 1])] },
       { template_text := "B", metadata := [("x", Val.list [Val.int 2])] }]).metadata
      "x" = some (Val.list [Val.int 1, Val.int 2]) ∧
    pyLookup (combine_templates
      [{ template_text := "A", metadata := [("x", Val.str "s")] },
       { template_text := "B", metadata := [("x", Val.int 3)] }]).metadata
      "x" = some (Val.list [Val.str "s", Val.int 3]) :=
  ⟨(combine_templates_metadata_characterization
      { template_text := "A", metadata := [("x", Val.list [Val.int 1])] }
      { template_text := "B", metadata := [("x", Val.list [Val.int 2])] }
      "\n\n" "x" (by simp) (by simp)).2.2.1 [Val.int 1] [Val.int 2] rfl rfl,
   (combine_templates_metadata_characterization
      { template_text := "A", metadata := [("x", Val.str "s")] }
      { template_text := "B", metadata := [("x", Val.int 3)] }
      "\n\n" "x" (by simp) (by simp)).2.2.2.2 (Val.str "s") (Val.int 3) rfl
      (fun l h => Val.noConfusion h) rfl⟩

/-! ## C2: render failure exactly at missing required variables -/

theorem substAuxF_ok (m : List (String × String)) :
    ∀ fuel cs, cs.length ≤ fuel → onlyBracedF fuel cs = true →
      (∀ v ∈ findVarsF fuel cs, (lookupStr m v).isSome = true) →
      ∃ out, substAuxF m fuel cs = .ok out := by
  intro fuel
  induction fuel with
  | zero =>
    intro cs _ _ _
    exact ⟨[], rfl⟩
  | succ fuel ih =>
    intro cs hlen hb hv
    match cs with
    | [] => exact ⟨[], rfl⟩
    | c :: rest =>
      simp only [List.length_cons] at hlen
      by_cases hc : c = '$'
      · subst hc
        match rest with
        | [] =>
          rw [show onlyBracedF (fuel + 1) ['$'] = false from rfl] at hb
          exact absurd hb (by simp)
        | r1 :: rest2 =>
          by_cases h1 : r1 = '\x7b'
          · subst h1
            cases hr : readBraced rest2 with
            | none =>
              unfold onlyBracedF at hb
              simp [hr] at hb
            | some p =>
              obtain ⟨id, rest'⟩ := p
              unfold onlyBracedF at hb
              simp only [if_pos rfl, hr] at hb
              have hlook : (lookupStr m id).isSome = true := by
                apply hv
                unfold findVarsF
                simp [hr]
              obtain ⟨v, hv0⟩ := Option.isSome_iff_exists.mp hlook
              have hlen' : rest'.length ≤ fuel := by
                have := readBraced_length hr
                simp only [List.length_cons] at hlen
                omega
              have hvars : ∀ w ∈ findVarsF fuel rest', (lookupStr m w).isSome = true := by
                intro w hw
                apply hv
                unfold findVarsF
                simp [hr, hw]
              obtain ⟨out, hout⟩ := ih rest' hlen' hb hvars
              refine ⟨v.toList ++ out, ?_⟩
              unfold substAuxF
              simp [hr, hv0, hout, Except.map]
          · unfold onlyBracedF at hb
            simp [h1] at hb
      · have hb' : onlyBracedF fuel rest = true := by
          unfold onlyBracedF at hb
          simpa [hc] using hb
        have hv' : ∀ v ∈ findVarsF fuel rest, (lookupStr m v).isSome = true := by
          intro v hvm
          apply hv
          unfold findVarsF
          simp [hc, hvm]
        obtain ⟨out, hout⟩ := ih rest (by omega) hb' hv'
        refine ⟨c :: out, ?_⟩
        unfold substAuxF
        simp [hc, hout, Except.map]

theorem substitute_ok (m : List (String × String)) (cs : List Char)
    (hb : onlyBraced cs = true)
    (hv : ∀ v ∈ findVars cs, (lookupStr m v).isSome = true) :
    ∃ out, substitute m cs = .ok out :=
  substAuxF_ok m cs.length cs le_rfl hb hv

theorem render_ok (t : PromptTemplate) (kwargs : List (String × String))
    (hb : onlyBraced t.template_text.toList = true)
    (hv : ∀ v ∈ t.required_vars, (lookupStr kwargs v).isSome = true) :
    ∃ out, t.render kwargs = .ok out := by
  unfold PromptTemplate.render
  have hm : (t.required_vars.filter (fun v => (lookupStr kwargs v).isNone)).isEmpty = true := by
    rw [List.isEmpty_iff, List.filter_eq_nil_iff]
    intro v hvm
    have h := hv v hvm
    cases hl : lookupStr kwargs v with
    | none => rw [hl] at h; simp at h
    | some _ => simp
  obtain ⟨out, hout⟩ := substitute_ok kwargs t.template_text.toList hb hv
  simp only [hm, if_true, hout]
  exact ⟨String.mk out, rfl⟩

/-- C2 counterexample: the template `"$x"` has NO required variables (the
`$\x7bident\x7d` scan finds none), so the empty mapping contains every
required name, yet `render` fails: `Template.substitute` still demands the
bare `$x` placeholder and its KeyError is re-raised as a ValueError. -/
theorem render_bare_dollar_counterexample :
    ({ template_text := "$x" } : PromptTemplate).required_vars = [] ∧
    ({ template_text := "$x" } : PromptTemplate).render [] =
      .error (.valueError "Missing template variable: \x27x\x27") :=
  ⟨rfl, rfl⟩

/-- C2 (amended): for templates whose every `$` opens a braced
`$\x7bident\x7d` placeholder, render succeeds whenever every required name
is supplied; and for EVERY template, omitting any required name fails
before substitution with an error listing exactly the absent required
names. -/
theorem render_missing_variables (t : PromptTemplate) (kwargs : List (String × String)) :
    (onlyBraced t.template_text.toList = true →
      (∀ v ∈ t.required_vars, (lookupStr kwargs v).isSome = true) →
      ∃ out, t.render kwargs = .ok out) ∧
    (∀ v₀ ∈ t.required_vars, lookupStr kwargs v₀ = none →
      (t.render kwargs = .error (.valueError ("Missing required variables: " ++
        String.intercalate ", "
          (t.required_vars.filter (fun v => (lookupStr kwargs v).isNone)))) ∧
      (∀ v, v ∈ t.required_vars.filter (fun v => (lookupStr kwargs v).isNone) ↔
        (v ∈ t.required_vars ∧ lookupStr kwargs v = none)))) := by
  constructor
  · exact render_ok t kwargs
  · intro v₀ hmem hnone
    constructor
    · unfold PromptTemplate.render
      have hne : (t.required_vars.filter (fun v => (lookupStr kwargs v).isNone)).isEmpty = false := by
        rw [List.isEmpty_eq_false_iff_exists_mem]
        exact ⟨v₀, List.mem_filter.mpr ⟨hmem, by rw [hnone]; rfl⟩⟩
      simp only [hne, Bool.false_eq_true, if_false]
    · intro v
      rw [List.mem_filter]
      constructor
      · rintro ⟨h1, h2⟩
        exact ⟨h1, Option.isNone_iff_eq_none.mp h2⟩
      · rintro ⟨h1, h2⟩
        exact ⟨h1, by rw [h2]; rfl⟩

theorem render_missing_variables_witness :
    (∃ out, ({ template_text := "$\x7ba\x7d and $\x7bb\x7d" } : PromptTemplate).render
      [("a", "1"), ("b", "2")] = .ok out) ∧
    ({ template_text := "$\x7ba\x7d and $\x7bb\x7d" } : PromptTemplate).render
      [("a", "1")] = .error (.valueError "Missing required variables: b") := by
  constructor
  · exact (render_missing_variables _ _).1 (by decide) (by decide)
  · have h := ((render_missing_variables
      ({ template_text := "$\x7ba\x7d and $\x7bb\x7d" } : PromptTemplate)
      [("a", "1")]).2 "b" (by decide) rfl).1
    rw [h]
    rfl

/-! ## C3: backend failure vs. parse failure in the handlers -/

theorem intent_render_ok (q : String) :
    ∃ out, intent_classifier_template.render [("query", q)] = .ok out := by
  apply render_ok
  · decide
  · have hreq : intent_classifier_template.required_vars = ["query"] := by decide
    rw [hreq]
    intro v hv
    simp only [List.mem_singleton] at hv
    subst hv
    rfl

theorem reading_render_ok (passage : String) :
    ∃ out, reading_difficulty_template.render [("passage", passage)] = .ok out := by
  apply render_ok
  · decide
  · have hreq : reading_difficulty_template.required_vars = ["passage"] := by decide
    rw [hreq]
    intro v hv
    simp only [List.mem_singleton] at hv
    subst hv
    rfl

theorem comprehension_render_ok (para gl qt : String) :
    ∃ out, comprehension_question_template.render
      [("paragraph", para), ("grade_level", gl), ("question_type", qt)] = .ok out := by
  apply render_ok
  · decide
  · have hreq : comprehension_question_template.required_vars =
        ["paragraph", "grade_level", "question_type"] := by decide
    rw [hreq]
    intro v hv
    simp only [List.mem_cons, List.not_mem_nil, or_false] at hv
    rcases hv with h | h | h <;> (subst h; rfl)

/-- C3 counterexample: when the collaborator itself raises, the exception
propagates out of `classify_reading_difficulty` — no fallback structure is
returned. -/
theorem backend_failure_counterexample :
    classify_reading_difficulty "p" (fun _ => .error (.valueError "backend down")) =
      .error (.valueError "backend down") := by
  obtain ⟨out, h⟩ := reading_render_ok "p"
  unfold classify_reading_difficulty
  rw [h]

/-- C3 (amended): exceptions raised while parsing or normalizing the
RESPONSE of the collaborator are caught and the degraded fallback structure is
returned, but an exception raised by the collaborator call itself
propagates to the caller of all three operations (the call sits outside
the `try:` block). -/
theorem backend_failure_handling (e : PyErr) (q passage para gl qt : String) :
    classify_educational_intent q (some (fun _ => .error e)) = .error e ∧
    classify_reading_difficulty passage (fun _ => .error e) = .error e ∧
    generate_comprehension_question para gl qt (some (fun _ => .error e)) = .error e ∧
    classify_educational_intent q (some (fun _ => .ok (.int 0))) =
      .ok (intentFallback q ("Error parsing response: " ++
        pyErrStr (.valueError "Unexpected response format"))) ∧
    classify_reading_difficulty passage (fun _ => .ok (.int 0)) =
      .ok (readingFallbackDict (.valueError "Unexpected response format")) ∧
    generate_comprehension_question para gl qt (some (fun _ => .ok (.int 0))) =
      .ok (comprehensionFallbackDict
        (if QUESTION_TYPES.contains qt then qt else "main_idea")
        (.valueError "Unexpected response format")) := by
  obtain ⟨o1, h1⟩ := intent_render_ok q
  obtain ⟨o2, h2⟩ := reading_render_ok passage
  obtain ⟨o3, h3⟩ := comprehension_render_ok para gl
    (if QUESTION_TYPES.contains qt then qt else "main_idea")
  refine ⟨?_, ?_, ?_, ?_, ?_, ?_⟩
  · unfold classify_educational_intent
    rw [h1]
  · unfold classify_reading_difficulty
    rw [h2]
  · unfold generate_comprehension_question
    dsimp only
    rw [h3]
  · unfold classify_educational_intent
    rw [h1]
    rfl
  · unfold classify_reading_difficulty
    rw [h2]
    rfl
  · unfold generate_comprehension_question
    dsimp only
    rw [h3]
    rfl
